import Mathlib

/-! ChemSure, `static/script.js`.

A shallow embedding of the browser-side controller of the GADSL substance
lookup tool: the result renderer `displayResults` and the two request
handlers (search form submit, PDF upload click).

JavaScript strings are modelled by `String` (a list of Unicode scalar values).
A record field that is `undefined` or `null` is `none`.

Built-ins of the language are modelled as follows.
* `String.prototype.trim` removes the ECMAScript `WhiteSpace` and
  `LineTerminator` code points from both ends.
* `String.prototype.toUpperCase` maps every code point through the full
  uppercase mapping of Unicode 14.0, which can lengthen the string
  (`ß` gives `SS`, `ﬁ` gives `FI`).
* `String.prototype.split("/")`, `Array.prototype.join("&")`.
* `Array.prototype.sort()` without comparator orders strings by their sequence
  of UTF-16 code units.

The two listeners are `async` functions. A listener runs without interruption
up to `await fetch(...)` and, when a response arrives, up to
`await response.json()`; while it is suspended other listeners may run and
write to the page. `searchSubmitAsync` and `uploadClickAsync` take these writes
as two page transformations; `searchSubmit` and `uploadClick` are the runs
during which nothing else writes to the page.
-/

namespace ChemSure

/-! ## String built-ins -/

/-- ECMAScript `WhiteSpace` and `LineTerminator` code points, the characters
that `trim` strips. -/
def isJsWhitespace (c : Char) : Bool :=
  let n := c.toNat
  n == 0x09 || n == 0x0A || n == 0x0B || n == 0x0C || n == 0x0D || n == 0x20 ||
  n == 0xA0 || n == 0x1680 || (0x2000 ≤ n && n ≤ 0x200A) || n == 0x2028 ||
  n == 0x2029 || n == 0x202F || n == 0x205F || n == 0x3000 || n == 0xFEFF

/-- Drop the leading whitespace of a character list. -/
def trimStartChars : List Char → List Char
  | [] => []
  | c :: cs => if isJsWhitespace c then trimStartChars cs else c :: cs

/-- Drop the trailing whitespace of a character list. -/
def trimEndChars : List Char → List Char
  | [] => []
  | c :: cs =>
    match trimEndChars cs with
    | [] => if isJsWhitespace c then [] else [c]
    | r :: rs => c :: r :: rs

/-- Character-level `trim`. -/
def trimChars (l : List Char) : List Char := trimStartChars (trimEndChars l)

/-- Model of `s.trim()`. -/
def jsTrim (s : String) : String := ⟨trimChars s.data⟩

/-- Uppercase mappings of the code points U+0061 to U+0109. -/
def upperTable0 : List (Nat × List Nat) :=
  [(0x61, [0x41]), (0x62, [0x42]), (0x63, [0x43]), (0x64, [0x44]), (0x65, [0x45]), (0x66, [0x46]),
    (0x67, [0x47]), (0x68, [0x48]), (0x69, [0x49]), (0x6A, [0x4A]), (0x6B, [0x4B]), (0x6C, [0x4C]),
    (0x6D, [0x4D]), (0x6E, [0x4E]), (0x6F, [0x4F]), (0x70, [0x50]), (0x71, [0x51]), (0x72, [0x52]),
    (0x73, [0x53]), (0x74, [0x54]), (0x75, [0x55]), (0x76, [0x56]), (0x77, [0x57]), (0x78, [0x58]),
    (0x79, [0x59]), (0x7A, [0x5A]), (0xB5, [0x39C]), (0xDF, [0x53, 0x53]), (0xE0, [0xC0]),
    (0xE1, [0xC1]), (0xE2, [0xC2]), (0xE3, [0xC3]), (0xE4, [0xC4]), (0xE5, [0xC5]), (0xE6, [0xC6]),
    (0xE7, [0xC7]), (0xE8, [0xC8]), (0xE9, [0xC9]), (0xEA, [0xCA]), (0xEB, [0xCB]), (0xEC, [0xCC]),
    (0xED, [0xCD]), (0xEE, [0xCE]), (0xEF, [0xCF]), (0xF0, [0xD0]), (0xF1, [0xD1]), (0xF2, [0xD2]),
    (0xF3, [0xD3]), (0xF4, [0xD4]), (0xF5, [0xD5]), (0xF6, [0xD6]), (0xF8, [0xD8]), (0xF9, [0xD9]),
    (0xFA, [0xDA]), (0xFB, [0xDB]), (0xFC, [0xDC]), (0xFD, [0xDD]), (0xFE, [0xDE]), (0xFF, [0x178]),
    (0x101, [0x100]), (0x103, [0x102]), (0x105, [0x104]), (0x107, [0x106]), (0x109, [0x108])]

/-- Uppercase mappings of the code points U+010B to U+018C. -/
def upperTable1 : List (Nat × List Nat) :=
  [(0x10B, [0x10A]), (0x10D, [0x10C]), (0x10F, [0x10E]), (0x111, [0x110]), (0x113, [0x112]),
    (0x115, [0x114]), (0x117, [0x116]), (0x119, [0x118]), (0x11B, [0x11A]), (0x11D, [0x11C]),
    (0x11F, [0x11E]), (0x121, [0x120]), (0x123, [0x122]), (0x125, [0x124]), (0x127, [0x126]),
    (0x129, [0x128]), (0x12B, [0x12A]), (0x12D, [0x12C]), (0x12F, [0x12E]), (0x131, [0x49]),
    (0x133, [0x132]), (0x135, [0x134]), (0x137, [0x136]), (0x13A, [0x139]), (0x13C, [0x13B]),
    (0x13E, [0x13D]), (0x140, [0x13F]), (0x142, [0x141]), (0x144, [0x143]), (0x146, [0x145]),
    (0x148, [0x147]), (0x149, [0x2BC, 0x4E]), (0x14B, [0x14A]), (0x14D, [0x14C]), (0x14F, [0x14E]),
    (0x151, [0x150]), (0x153, [0x152]), (0x155, [0x154]), (0x157, [0x156]), (0x159, [0x158]),
    (0x15B, [0x15A]), (0x15D, [0x15C]), (0x15F, [0x15E]), (0x161, [0x160]), (0x163, [0x162]),
    (0x165, [0x164]), (0x167, [0x166]), (0x169, [0x168]), (0x16B, [0x16A]), (0x16D, [0x16C]),
    (0x16F, [0x16E]), (0x171, [0x170]), (0x173, [0x172]), (0x175, [0x174]), (0x177, [0x176]),
    (0x17A, [0x179]), (0x17C, [0x17B]), (0x17E, [0x17D]), (0x17F, [0x53]), (0x180, [0x243]),
    (0x183, [0x182]), (0x185, [0x184]), (0x188, [0x187]), (0x18C, [0x18B])]

/-- Uppercase mappings of the code points U+0192 to U+021F. -/
def upperTable2 : List (Nat × List Nat) :=
  [(0x192, [0x191]), (0x195, [0x1F6]), (0x199, [0x198]), (0x19A, [0x23D]), (0x19E, [0x220]),
    (0x1A1, [0x1A0]), (0x1A3, [0x1A2]), (0x1A5, [0x1A4]), (0x1A8, [0x1A7]), (0x1AD, [0x1AC]),
    (0x1B0, [0x1AF]), (0x1B4, [0x1B3]), (0x1B6, [0x1B5]), (0x1B9, [0x1B8]), (0x1BD, [0x1BC]),
    (0x1BF, [0x1F7]), (0x1C5, [0x1C4]), (0x1C6, [0x1C4]), (0x1C8, [0x1C7]), (0x1C9, [0x1C7]),
    (0x1CB, [0x1CA]), (0x1CC, [0x1CA]), (0x1CE, [0x1CD]), (0x1D0, [0x1CF]), (0x1D2, [0x1D1]),
    (0x1D4, [0x1D3]), (0x1D6, [0x1D5]), (0x1D8, [0x1D7]), (0x1DA, [0x1D9]), (0x1DC, [0x1DB]),
    (0x1DD, [0x18E]), (0x1DF, [0x1DE]), (0x1E1, [0x1E0]), (0x1E3, [0x1E2]), (0x1E5, [0x1E4]),
    (0x1E7, [0x1E6]), (0x1E9, [0x1E8]), (0x1EB, [0x1EA]), (0x1ED, [0x1EC]), (0x1EF, [0x1EE]),
    (0x1F0, [0x4A, 0x30C]), (0x1F2, [0x1F1]), (0x1F3, [0x1F1]), (0x1F5, [0x1F4]), (0x1F9, [0x1F8]),
    (0x1FB, [0x1FA]), (0x1FD, [0x1FC]), (0x1FF, [0x1FE]), (0x201, [0x200]), (0x203, [0x202]),
    (0x205, [0x204]), (0x207, [0x206]), (0x209, [0x208]), (0x20B, [0x20A]), (0x20D, [0x20C]),
    (0x20F, [0x20E]), (0x211, [0x210]), (0x213, [0x212]), (0x215, [0x214]), (0x217, [0x216]),
    (0x219, [0x218]), (0x21B, [0x21A]), (0x21D, [0x21C]), (0x21F, [0x21E])]

/-- Uppercase mappings of the code points U+0223 to U+03AC. -/
def upperTable3 : List (Nat × List Nat) :=
  [(0x223, [0x222]), (0x225, [0x224]), (0x227, [0x226]), (0x229, [0x228]), (0x22B, [0x22A]),
    (0x22D, [0x22C]), (0x22F, [0x22E]), (0x231, [0x230]), (0x233, [0x232]), (0x23C, [0x23B]),
    (0x23F, [0x2C7E]), (0x240, [0x2C7F]), (0x242, [0x241]), (0x247, [0x246]), (0x249, [0x248]),
    (0x24B, [0x24A]), (0x24D, [0x24C]), (0x24F, [0x24E]), (0x250, [0x2C6F]), (0x251, [0x2C6D]),
    (0x252, [0x2C70]), (0x253, [0x181]), (0x254, [0x186]), (0x256, [0x189]), (0x257, [0x18A]),
    (0x259, [0x18F]), (0x25B, [0x190]), (0x25C, [0xA7AB]), (0x260, [0x193]), (0x261, [0xA7AC]),
    (0x263, [0x194]), (0x265, [0xA78D]), (0x266, [0xA7AA]), (0x268, [0x197]), (0x269, [0x196]),
    (0x26A, [0xA7AE]), (0x26B, [0x2C62]), (0x26C, [0xA7AD]), (0x26F, [0x19C]), (0x271, [0x2C6E]),
    (0x272, [0x19D]), (0x275, [0x19F]), (0x27D, [0x2C64]), (0x280, [0x1A6]), (0x282, [0xA7C5]),
    (0x283, [0x1A9]), (0x287, [0xA7B1]), (0x288, [0x1AE]), (0x289, [0x244]), (0x28A, [0x1B1]),
    (0x28B, [0x1B2]), (0x28C, [0x245]), (0x292, [0x1B7]), (0x29D, [0xA7B2]), (0x29E, [0xA7B0]),
    (0x345, [0x399]), (0x371, [0x370]), (0x373, [0x372]), (0x377, [0x376]), (0x37B, [0x3FD]),
    (0x37C, [0x3FE]), (0x37D, [0x3FF]), (0x390, [0x399, 0x308, 0x301]), (0x3AC, [0x386])]

/-- Uppercase mappings of the code points U+03AD to U+0435. -/
def upperTable4 : List (Nat × List Nat) :=
  [(0x3AD, [0x388]), (0x3AE, [0x389]), (0x3AF, [0x38A]), (0x3B0, [0x3A5, 0x308, 0x301]),
    (0x3B1, [0x391]), (0x3B2, [0x392]), (0x3B3, [0x393]), (0x3B4, [0x394]), (0x3B5, [0x395]),
    (0x3B6, [0x396]), (0x3B7, [0x397]), (0x3B8, [0x398]), (0x3B9, [0x399]), (0x3BA, [0x39A]),
    (0x3BB, [0x39B]), (0x3BC, [0x39C]), (0x3BD, [0x39D]), (0x3BE, [0x39E]), (0x3BF, [0x39F]),
    (0x3C0, [0x3A0]), (0x3C1, [0x3A1]), (0x3C2, [0x3A3]), (0x3C3, [0x3A3]), (0x3C4, [0x3A4]),
    (0x3C5, [0x3A5]), (0x3C6, [0x3A6]), (0x3C7, [0x3A7]), (0x3C8, [0x3A8]), (0x3C9, [0x3A9]),
    (0x3CA, [0x3AA]), (0x3CB, [0x3AB]), (0x3CC, [0x38C]), (0x3CD, [0x38E]), (0x3CE, [0x38F]),
    (0x3D0, [0x392]), (0x3D1, [0x398]), (0x3D5, [0x3A6]), (0x3D6, [0x3A0]), (0x3D7, [0x3CF]),
    (0x3D9, [0x3D8]), (0x3DB, [0x3DA]), (0x3DD, [0x3DC]), (0x3DF, [0x3DE]), (0x3E1, [0x3E0]),
    (0x3E3, [0x3E2]), (0x3E5, [0x3E4]), (0x3E7, [0x3E6]), (0x3E9, [0x3E8]), (0x3EB, [0x3EA]),
    (0x3ED, [0x3EC]), (0x3EF, [0x3EE]), (0x3F0, [0x39A]), (0x3F1, [0x3A1]), (0x3F2, [0x3F9]),
    (0x3F3, [0x37F]), (0x3F5, [0x395]), (0x3F8, [0x3F7]), (0x3FB, [0x3FA]), (0x430, [0x410]),
    (0x431, [0x411]), (0x432, [0x412]), (0x433, [0x413]), (0x434, [0x414]), (0x435, [0x415])]

/-- Uppercase mappings of the code points U+0436 to U+0493. -/
def upperTable5 : List (Nat × List Nat) :=
  [(0x436, [0x416]), (0x437, [0x417]), (0x438, [0x418]), (0x439, [0x419]), (0x43A, [0x41A]),
    (0x43B, [0x41B]), (0x43C, [0x41C]), (0x43D, [0x41D]), (0x43E, [0x41E]), (0x43F, [0x41F]),
    (0x440, [0x420]), (0x441, [0x421]), (0x442, [0x422]), (0x443, [0x423]), (0x444, [0x424]),
    (0x445, [0x425]), (0x446, [0x426]), (0x447, [0x427]), (0x448, [0x428]), (0x449, [0x429]),
    (0x44A, [0x42A]), (0x44B, [0x42B]), (0x44C, [0x42C]), (0x44D, [0x42D]), (0x44E, [0x42E]),
    (0x44F, [0x42F]), (0x450, [0x400]), (0x451, [0x401]), (0x452, [0x402]), (0x453, [0x403]),
    (0x454, [0x404]), (0x455, [0x405]), (0x456, [0x406]), (0x457, [0x407]), (0x458, [0x408]),
    (0x459, [0x409]), (0x45A, [0x40A]), (0x45B, [0x40B]), (0x45C, [0x40C]), (0x45D, [0x40D]),
    (0x45E, [0x40E]), (0x45F, [0x40F]), (0x461, [0x460]), (0x463, [0x462]), (0x465, [0x464]),
    (0x467, [0x466]), (0x469, [0x468]), (0x46B, [0x46A]), (0x46D, [0x46C]), (0x46F, [0x46E]),
    (0x471, [0x470]), (0x473, [0x472]), (0x475, [0x474]), (0x477, [0x476]), (0x479, [0x478]),
    (0x47B, [0x47A]), (0x47D, [0x47C]), (0x47F, [0x47E]), (0x481, [0x480]), (0x48B, [0x48A]),
    (0x48D, [0x48C]), (0x48F, [0x48E]), (0x491, [0x490]), (0x493, [0x492])]

/-- Uppercase mappings of the code points U+0495 to U+0513. -/
def upperTable6 : List (Nat × List Nat) :=
  [(0x495, [0x494]), (0x497, [0x496]), (0x499, [0x498]), (0x49B, [0x49A]), (0x49D, [0x49C]),
    (0x49F, [0x49E]), (0x4A1, [0x4A0]), (0x4A3, [0x4A2]), (0x4A5, [0x4A4]), (0x4A7, [0x4A6]),
    (0x4A9, [0x4A8]), (0x4AB, [0x4AA]), (0x4AD, [0x4AC]), (0x4AF, [0x4AE]), (0x4B1, [0x4B0]),
    (0x4B3, [0x4B2]), (0x4B5, [0x4B4]), (0x4B7, [0x4B6]), (0x4B9, [0x4B8]), (0x4BB, [0x4BA]),
    (0x4BD, [0x4BC]), (0x4BF, [0x4BE]), (0x4C2, [0x4C1]), (0x4C4, [0x4C3]), (0x4C6, [0x4C5]),
    (0x4C8, [0x4C7]), (0x4CA, [0x4C9]), (0x4CC, [0x4CB]), (0x4CE, [0x4CD]), (0x4CF, [0x4C0]),
    (0x4D1, [0x4D0]), (0x4D3, [0x4D2]), (0x4D5, [0x4D4]), (0x4D7, [0x4D6]), (0x4D9, [0x4D8]),
    (0x4DB, [0x4DA]), (0x4DD, [0x4DC]), (0x4DF, [0x4DE]), (0x4E1, [0x4E0]), (0x4E3, [0x4E2]),
    (0x4E5, [0x4E4]), (0x4E7, [0x4E6]), (0x4E9, [0x4E8]), (0x4EB, [0x4EA]), (0x4ED, [0x4EC]),
    (0x4EF, [0x4EE]), (0x4F1, [0x4F0]), (0x4F3, [0x4F2]), (0x4F5, [0x4F4]), (0x4F7, [0x4F6]),
    (0x4F9, [0x4F8]), (0x4FB, [0x4FA]), (0x4FD, [0x4FC]), (0x4FF, [0x4FE]), (0x501, [0x500]),
    (0x503, [0x502]), (0x505, [0x504]), (0x507, [0x506]), (0x509, [0x508]), (0x50B, [0x50A]),
    (0x50D, [0x50C]), (0x50F, [0x50E]), (0x511, [0x510]), (0x513, [0x512])]

/-- Uppercase mappings of the code points U+0515 to U+10DA. -/
def upperTable7 : List (Nat × List Nat) :=
  [(0x515, [0x514]), (0x517, [0x516]), (0x519, [0x518]), (0x51B, [0x51A]), (0x51D, [0x51C]),
    (0x51F, [0x51E]), (0x521, [0x520]), (0x523, [0x522]), (0x525, [0x524]), (0x527, [0x526]),
    (0x529, [0x528]), (0x52B, [0x52A]), (0x52D, [0x52C]), (0x52F, [0x52E]), (0x561, [0x531]),
    (0x562, [0x532]), (0x563, [0x533]), (0x564, [0x534]), (0x565, [0x535]), (0x566, [0x536]),
    (0x567, [0x537]), (0x568, [0x538]), (0x569, [0x539]), (0x56A, [0x53A]), (0x56B, [0x53B]),
    (0x56C, [0x53C]), (0x56D, [0x53D]), (0x56E, [0x53E]), (0x56F, [0x53F]), (0x570, [0x540]),
    (0x571, [0x541]), (0x572, [0x542]), (0x573, [0x543]), (0x574, [0x544]), (0x575, [0x545]),
    (0x576, [0x546]), (0x577, [0x547]), (0x578, [0x548]), (0x579, [0x549]), (0x57A, [0x54A]),
    (0x57B, [0x54B]), (0x57C, [0x54C]), (0x57D, [0x54D]), (0x57E, [0x54E]), (0x57F, [0x54F]),
    (0x580, [0x550]), (0x581, [0x551]), (0x582, [0x552]), (0x583, [0x553]), (0x584, [0x554]),
    (0x585, [0x555]), (0x586, [0x556]), (0x587, [0x535, 0x552]), (0x10D0, [0x1C90]),
    (0x10D1, [0x1C91]), (0x10D2, [0x1C92]), (0x10D3, [0x1C93]), (0x10D4, [0x1C94]),
    (0x10D5, [0x1C95]), (0x10D6, [0x1C96]), (0x10D7, [0x1C97]), (0x10D8, [0x1C98]),
    (0x10D9, [0x1C99]), (0x10DA, [0x1C9A])]

/-- Uppercase mappings of the code points U+10DB to U+1E15. -/
def upperTable8 : List (Nat × List Nat) :=
  [(0x10DB, [0x1C9B]), (0x10DC, [0x1C9C]), (0x10DD, [0x1C9D]), (0x10DE, [0x1C9E]),
    (0x10DF, [0x1C9F]), (0x10E0, [0x1CA0]), (0x10E1, [0x1CA1]), (0x10E2, [0x1CA2]),
    (0x10E3, [0x1CA3]), (0x10E4, [0x1CA4]), (0x10E5, [0x1CA5]), (0x10E6, [0x1CA6]),
    (0x10E7, [0x1CA7]), (0x10E8, [0x1CA8]), (0x10E9, [0x1CA9]), (0x10EA, [0x1CAA]),
    (0x10EB, [0x1CAB]), (0x10EC, [0x1CAC]), (0x10ED, [0x1CAD]), (0x10EE, [0x1CAE]),
    (0x10EF, [0x1CAF]), (0x10F0, [0x1CB0]), (0x10F1, [0x1CB1]), (0x10F2, [0x1CB2]),
    (0x10F3, [0x1CB3]), (0x10F4, [0x1CB4]), (0x10F5, [0x1CB5]), (0x10F6, [0x1CB6]),
    (0x10F7, [0x1CB7]), (0x10F8, [0x1CB8]), (0x10F9, [0x1CB9]), (0x10FA, [0x1CBA]),
    (0x10FD, [0x1CBD]), (0x10FE, [0x1CBE]), (0x10FF, [0x1CBF]), (0x13F8, [0x13F0]),
    (0x13F9, [0x13F1]), (0x13FA, [0x13F2]), (0x13FB, [0x13F3]), (0x13FC, [0x13F4]),
    (0x13FD, [0x13F5]), (0x1C80, [0x412]), (0x1C81, [0x414]), (0x1C82, [0x41E]), (0x1C83, [0x421]),
    (0x1C84, [0x422]), (0x1C85, [0x422]), (0x1C86, [0x42A]), (0x1C87, [0x462]), (0x1C88, [0xA64A]),
    (0x1D79, [0xA77D]), (0x1D7D, [0x2C63]), (0x1D8E, [0xA7C6]), (0x1E01, [0x1E00]),
    (0x1E03, [0x1E02]), (0x1E05, [0x1E04]), (0x1E07, [0x1E06]), (0x1E09, [0x1E08]),
    (0x1E0B, [0x1E0A]), (0x1E0D, [0x1E0C]), (0x1E0F, [0x1E0E]), (0x1E11, [0x1E10]),
    (0x1E13, [0x1E12]), (0x1E15, [0x1E14])]

/-- Uppercase mappings of the code points U+1E17 to U+1E95. -/
def upperTable9 : List (Nat × List Nat) :=
  [(0x1E17, [0x1E16]), (0x1E19, [0x1E18]), (0x1E1B, [0x1E1A]), (0x1E1D, [0x1E1C]),
    (0x1E1F, [0x1E1E]), (0x1E21, [0x1E20]), (0x1E23, [0x1E22]), (0x1E25, [0x1E24]),
    (0x1E27, [0x1E26]), (0x1E29, [0x1E28]), (0x1E2B, [0x1E2A]), (0x1E2D, [0x1E2C]),
    (0x1E2F, [0x1E2E]), (0x1E31, [0x1E30]), (0x1E33, [0x1E32]), (0x1E35, [0x1E34]),
    (0x1E37, [0x1E36]), (0x1E39, [0x1E38]), (0x1E3B, [0x1E3A]), (0x1E3D, [0x1E3C]),
    (0x1E3F, [0x1E3E]), (0x1E41, [0x1E40]), (0x1E43, [0x1E42]), (0x1E45, [0x1E44]),
    (0x1E47, [0x1E46]), (0x1E49, [0x1E48]), (0x1E4B, [0x1E4A]), (0x1E4D, [0x1E4C]),
    (0x1E4F, [0x1E4E]), (0x1E51, [0x1E50]), (0x1E53, [0x1E52]), (0x1E55, [0x1E54]),
    (0x1E57, [0x1E56]), (0x1E59, [0x1E58]), (0x1E5B, [0x1E5A]), (0x1E5D, [0x1E5C]),
    (0x1E5F, [0x1E5E]), (0x1E61, [0x1E60]), (0x1E63, [0x1E62]), (0x1E65, [0x1E64]),
    (0x1E67, [0x1E66]), (0x1E69, [0x1E68]), (0x1E6B, [0x1E6A]), (0x1E6D, [0x1E6C]),
    (0x1E6F, [0x1E6E]), (0x1E71, [0x1E70]), (0x1E73, [0x1E72]), (0x1E75, [0x1E74]),
    (0x1E77, [0x1E76]), (0x1E79, [0x1E78]), (0x1E7B, [0x1E7A]), (0x1E7D, [0x1E7C]),
    (0x1E7F, [0x1E7E]), (0x1E81, [0x1E80]), (0x1E83, [0x1E82]), (0x1E85, [0x1E84]),
    (0x1E87, [0x1E86]), (0x1E89, [0x1E88]), (0x1E8B, [0x1E8A]), (0x1E8D, [0x1E8C]),
    (0x1E8F, [0x1E8E]), (0x1E91, [0x1E90]), (0x1E93, [0x1E92]), (0x1E95, [0x1E94])]

/-- Uppercase mappings of the code points U+1E96 to U+1F11. -/
def upperTable10 : List (Nat × List Nat) :=
  [(0x1E96, [0x48, 0x331]), (0x1E97, [0x54, 0x308]), (0x1E98, [0x57, 0x30A]),
    (0x1E99, [0x59, 0x30A]), (0x1E9A, [0x41, 0x2BE]), (0x1E9B, [0x1E60]), (0x1EA1, [0x1EA0]),
    (0x1EA3, [0x1EA2]), (0x1EA5, [0x1EA4]), (0x1EA7, [0x1EA6]), (0x1EA9, [0x1EA8]),
    (0x1EAB, [0x1EAA]), (0x1EAD, [0x1EAC]), (0x1EAF, [0x1EAE]), (0x1EB1, [0x1EB0]),
    (0x1EB3, [0x1EB2]), (0x1EB5, [0x1EB4]), (0x1EB7, [0x1EB6]), (0x1EB9, [0x1EB8]),
    (0x1EBB, [0x1EBA]), (0x1EBD, [0x1EBC]), (0x1EBF, [0x1EBE]), (0x1EC1, [0x1EC0]),
    (0x1EC3, [0x1EC2]), (0x1EC5, [0x1EC4]), (0x1EC7, [0x1EC6]), (0x1EC9, [0x1EC8]),
    (0x1ECB, [0x1ECA]), (0x1ECD, [0x1ECC]), (0x1ECF, [0x1ECE]), (0x1ED1, [0x1ED0]),
    (0x1ED3, [0x1ED2]), (0x1ED5, [0x1ED4]), (0x1ED7, [0x1ED6]), (0x1ED9, [0x1ED8]),
    (0x1EDB, [0x1EDA]), (0x1EDD, [0x1EDC]), (0x1EDF, [0x1EDE]), (0x1EE1, [0x1EE0]),
    (0x1EE3, [0x1EE2]), (0x1EE5, [0x1EE4]), (0x1EE7, [0x1EE6]), (0x1EE9, [0x1EE8]),
    (0x1EEB, [0x1EEA]), (0x1EED, [0x1EEC]), (0x1EEF, [0x1EEE]), (0x1EF1, [0x1EF0]),
    (0x1EF3, [0x1EF2]), (0x1EF5, [0x1EF4]), (0x1EF7, [0x1EF6]), (0x1EF9, [0x1EF8]),
    (0x1EFB, [0x1EFA]), (0x1EFD, [0x1EFC]), (0x1EFF, [0x1EFE]), (0x1F00, [0x1F08]),
    (0x1F01, [0x1F09]), (0x1F02, [0x1F0A]), (0x1F03, [0x1F0B]), (0x1F04, [0x1F0C]),
    (0x1F05, [0x1F0D]), (0x1F06, [0x1F0E]), (0x1F07, [0x1F0F]), (0x1F10, [0x1F18]),
    (0x1F11, [0x1F19])]

/-- Uppercase mappings of the code points U+1F12 to U+1F87. -/
def upperTable11 : List (Nat × List Nat) :=
  [(0x1F12, [0x1F1A]), (0x1F13, [0x1F1B]), (0x1F14, [0x1F1C]), (0x1F15, [0x1F1D]),
    (0x1F20, [0x1F28]), (0x1F21, [0x1F29]), (0x1F22, [0x1F2A]), (0x1F23, [0x1F2B]),
    (0x1F24, [0x1F2C]), (0x1F25, [0x1F2D]), (0x1F26, [0x1F2E]), (0x1F27, [0x1F2F]),
    (0x1F30, [0x1F38]), (0x1F31, [0x1F39]), (0x1F32, [0x1F3A]), (0x1F33, [0x1F3B]),
    (0x1F34, [0x1F3C]), (0x1F35, [0x1F3D]), (0x1F36, [0x1F3E]), (0x1F37, [0x1F3F]),
    (0x1F40, [0x1F48]), (0x1F41, [0x1F49]), (0x1F42, [0x1F4A]), (0x1F43, [0x1F4B]),
    (0x1F44, [0x1F4C]), (0x1F45, [0x1F4D]), (0x1F50, [0x3A5, 0x313]), (0x1F51, [0x1F59]),
    (0x1F52, [0x3A5, 0x313, 0x300]), (0x1F53, [0x1F5B]), (0x1F54, [0x3A5, 0x313, 0x301]),
    (0x1F55, [0x1F5D]), (0x1F56, [0x3A5, 0x313, 0x342]), (0x1F57, [0x1F5F]), (0x1F60, [0x1F68]),
    (0x1F61, [0x1F69]), (0x1F62, [0x1F6A]), (0x1F63, [0x1F6B]), (0x1F64, [0x1F6C]),
    (0x1F65, [0x1F6D]), (0x1F66, [0x1F6E]), (0x1F67, [0x1F6F]), (0x1F70, [0x1FBA]),
    (0x1F71, [0x1FBB]), (0x1F72, [0x1FC8]), (0x1F73, [0x1FC9]), (0x1F74, [0x1FCA]),
    (0x1F75, [0x1FCB]), (0x1F76, [0x1FDA]), (0x1F77, [0x1FDB]), (0x1F78, [0x1FF8]),
    (0x1F79, [0x1FF9]), (0x1F7A, [0x1FEA]), (0x1F7B, [0x1FEB]), (0x1F7C, [0x1FFA]),
    (0x1F7D, [0x1FFB]), (0x1F80, [0x1F08, 0x399]), (0x1F81, [0x1F09, 0x399]),
    (0x1F82, [0x1F0A, 0x399]), (0x1F83, [0x1F0B, 0x399]), (0x1F84, [0x1F0C, 0x399]),
    (0x1F85, [0x1F0D, 0x399]), (0x1F86, [0x1F0E, 0x399]), (0x1F87, [0x1F0F, 0x399])]

/-- Uppercase mappings of the code points U+1F88 to U+1FE2. -/
def upperTable12 : List (Nat × List Nat) :=
  [(0x1F88, [0x1F08, 0x399]), (0x1F89, [0x1F09, 0x399]), (0x1F8A, [0x1F0A, 0x399]),
    (0x1F8B, [0x1F0B, 0x399]), (0x1F8C, [0x1F0C, 0x399]), (0x1F8D, [0x1F0D, 0x399]),
    (0x1F8E, [0x1F0E, 0x399]), (0x1F8F, [0x1F0F, 0x399]), (0x1F90, [0x1F28, 0x399]),
    (0x1F91, [0x1F29, 0x399]), (0x1F92, [0x1F2A, 0x399]), (0x1F93, [0x1F2B, 0x399]),
    (0x1F94, [0x1F2C, 0x399]), (0x1F95, [0x1F2D, 0x399]), (0x1F96, [0x1F2E, 0x399]),
    (0x1F97, [0x1F2F, 0x399]), (0x1F98, [0x1F28, 0x399]), (0x1F99, [0x1F29, 0x399]),
    (0x1F9A, [0x1F2A, 0x399]), (0x1F9B, [0x1F2B, 0x399]), (0x1F9C, [0x1F2C, 0x399]),
    (0x1F9D, [0x1F2D, 0x399]), (0x1F9E, [0x1F2E, 0x399]), (0x1F9F, [0x1F2F, 0x399]),
    (0x1FA0, [0x1F68, 0x399]), (0x1FA1, [0x1F69, 0x399]), (0x1FA2, [0x1F6A, 0x399]),
    (0x1FA3, [0x1F6B, 0x399]), (0x1FA4, [0x1F6C, 0x399]), (0x1FA5, [0x1F6D, 0x399]),
    (0x1FA6, [0x1F6E, 0x399]), (0x1FA7, [0x1F6F, 0x399]), (0x1FA8, [0x1F68, 0x399]),
    (0x1FA9, [0x1F69, 0x399]), (0x1FAA, [0x1F6A, 0x399]), (0x1FAB, [0x1F6B, 0x399]),
    (0x1FAC, [0x1F6C, 0x399]), (0x1FAD, [0x1F6D, 0x399]), (0x1FAE, [0x1F6E, 0x399]),
    (0x1FAF, [0x1F6F, 0x399]), (0x1FB0, [0x1FB8]), (0x1FB1, [0x1FB9]), (0x1FB2, [0x1FBA, 0x399]),
    (0x1FB3, [0x391, 0x399]), (0x1FB4, [0x386, 0x399]), (0x1FB6, [0x391, 0x342]),
    (0x1FB7, [0x391, 0x342, 0x399]), (0x1FBC, [0x391, 0x399]), (0x1FBE, [0x399]),
    (0x1FC2, [0x1FCA, 0x399]), (0x1FC3, [0x397, 0x399]), (0x1FC4, [0x389, 0x399]),
    (0x1FC6, [0x397, 0x342]), (0x1FC7, [0x397, 0x342, 0x399]), (0x1FCC, [0x397, 0x399]),
    (0x1FD0, [0x1FD8]), (0x1FD1, [0x1FD9]), (0x1FD2, [0x399, 0x308, 0x300]),
    (0x1FD3, [0x399, 0x308, 0x301]), (0x1FD6, [0x399, 0x342]), (0x1FD7, [0x399, 0x308, 0x342]),
    (0x1FE0, [0x1FE8]), (0x1FE1, [0x1FE9]), (0x1FE2, [0x3A5, 0x308, 0x300])]

/-- Uppercase mappings of the code points U+1FE3 to U+2C38. -/
def upperTable13 : List (Nat × List Nat) :=
  [(0x1FE3, [0x3A5, 0x308, 0x301]), (0x1FE4, [0x3A1, 0x313]), (0x1FE5, [0x1FEC]),
    (0x1FE6, [0x3A5, 0x342]), (0x1FE7, [0x3A5, 0x308, 0x342]), (0x1FF2, [0x1FFA, 0x399]),
    (0x1FF3, [0x3A9, 0x399]), (0x1FF4, [0x38F, 0x399]), (0x1FF6, [0x3A9, 0x342]),
    (0x1FF7, [0x3A9, 0x342, 0x399]), (0x1FFC, [0x3A9, 0x399]), (0x214E, [0x2132]),
    (0x2170, [0x2160]), (0x2171, [0x2161]), (0x2172, [0x2162]), (0x2173, [0x2163]),
    (0x2174, [0x2164]), (0x2175, [0x2165]), (0x2176, [0x2166]), (0x2177, [0x2167]),
    (0x2178, [0x2168]), (0x2179, [0x2169]), (0x217A, [0x216A]), (0x217B, [0x216B]),
    (0x217C, [0x216C]), (0x217D, [0x216D]), (0x217E, [0x216E]), (0x217F, [0x216F]),
    (0x2184, [0x2183]), (0x24D0, [0x24B6]), (0x24D1, [0x24B7]), (0x24D2, [0x24B8]),
    (0x24D3, [0x24B9]), (0x24D4, [0x24BA]), (0x24D5, [0x24BB]), (0x24D6, [0x24BC]),
    (0x24D7, [0x24BD]), (0x24D8, [0x24BE]), (0x24D9, [0x24BF]), (0x24DA, [0x24C0]),
    (0x24DB, [0x24C1]), (0x24DC, [0x24C2]), (0x24DD, [0x24C3]), (0x24DE, [0x24C4]),
    (0x24DF, [0x24C5]), (0x24E0, [0x24C6]), (0x24E1, [0x24C7]), (0x24E2, [0x24C8]),
    (0x24E3, [0x24C9]), (0x24E4, [0x24CA]), (0x24E5, [0x24CB]), (0x24E6, [0x24CC]),
    (0x24E7, [0x24CD]), (0x24E8, [0x24CE]), (0x24E9, [0x24CF]), (0x2C30, [0x2C00]),
    (0x2C31, [0x2C01]), (0x2C32, [0x2C02]), (0x2C33, [0x2C03]), (0x2C34, [0x2C04]),
    (0x2C35, [0x2C05]), (0x2C36, [0x2C06]), (0x2C37, [0x2C07]), (0x2C38, [0x2C08])]

/-- Uppercase mappings of the code points U+2C39 to U+2CA1. -/
def upperTable14 : List (Nat × List Nat) :=
  [(0x2C39, [0x2C09]), (0x2C3A, [0x2C0A]), (0x2C3B, [0x2C0B]), (0x2C3C, [0x2C0C]),
    (0x2C3D, [0x2C0D]), (0x2C3E, [0x2C0E]), (0x2C3F, [0x2C0F]), (0x2C40, [0x2C10]),
    (0x2C41, [0x2C11]), (0x2C42, [0x2C12]), (0x2C43, [0x2C13]), (0x2C44, [0x2C14]),
    (0x2C45, [0x2C15]), (0x2C46, [0x2C16]), (0x2C47, [0x2C17]), (0x2C48, [0x2C18]),
    (0x2C49, [0x2C19]), (0x2C4A, [0x2C1A]), (0x2C4B, [0x2C1B]), (0x2C4C, [0x2C1C]),
    (0x2C4D, [0x2C1D]), (0x2C4E, [0x2C1E]), (0x2C4F, [0x2C1F]), (0x2C50, [0x2C20]),
    (0x2C51, [0x2C21]), (0x2C52, [0x2C22]), (0x2C53, [0x2C23]), (0x2C54, [0x2C24]),
    (0x2C55, [0x2C25]), (0x2C56, [0x2C26]), (0x2C57, [0x2C27]), (0x2C58, [0x2C28]),
    (0x2C59, [0x2C29]), (0x2C5A, [0x2C2A]), (0x2C5B, [0x2C2B]), (0x2C5C, [0x2C2C]),
    (0x2C5D, [0x2C2D]), (0x2C5E, [0x2C2E]), (0x2C5F, [0x2C2F]), (0x2C61, [0x2C60]),
    (0x2C65, [0x23A]), (0x2C66, [0x23E]), (0x2C68, [0x2C67]), (0x2C6A, [0x2C69]),
    (0x2C6C, [0x2C6B]), (0x2C73, [0x2C72]), (0x2C76, [0x2C75]), (0x2C81, [0x2C80]),
    (0x2C83, [0x2C82]), (0x2C85, [0x2C84]), (0x2C87, [0x2C86]), (0x2C89, [0x2C88]),
    (0x2C8B, [0x2C8A]), (0x2C8D, [0x2C8C]), (0x2C8F, [0x2C8E]), (0x2C91, [0x2C90]),
    (0x2C93, [0x2C92]), (0x2C95, [0x2C94]), (0x2C97, [0x2C96]), (0x2C99, [0x2C98]),
    (0x2C9B, [0x2C9A]), (0x2C9D, [0x2C9C]), (0x2C9F, [0x2C9E]), (0x2CA1, [0x2CA0])]

/-- Uppercase mappings of the code points U+2CA3 to U+2D1B. -/
def upperTable15 : List (Nat × List Nat) :=
  [(0x2CA3, [0x2CA2]), (0x2CA5, [0x2CA4]), (0x2CA7, [0x2CA6]), (0x2CA9, [0x2CA8]),
    (0x2CAB, [0x2CAA]), (0x2CAD, [0x2CAC]), (0x2CAF, [0x2CAE]), (0x2CB1, [0x2CB0]),
    (0x2CB3, [0x2CB2]), (0x2CB5, [0x2CB4]), (0x2CB7, [0x2CB6]), (0x2CB9, [0x2CB8]),
    (0x2CBB, [0x2CBA]), (0x2CBD, [0x2CBC]), (0x2CBF, [0x2CBE]), (0x2CC1, [0x2CC0]),
    (0x2CC3, [0x2CC2]), (0x2CC5, [0x2CC4]), (0x2CC7, [0x2CC6]), (0x2CC9, [0x2CC8]),
    (0x2CCB, [0x2CCA]), (0x2CCD, [0x2CCC]), (0x2CCF, [0x2CCE]), (0x2CD1, [0x2CD0]),
    (0x2CD3, [0x2CD2]), (0x2CD5, [0x2CD4]), (0x2CD7, [0x2CD6]), (0x2CD9, [0x2CD8]),
    (0x2CDB, [0x2CDA]), (0x2CDD, [0x2CDC]), (0x2CDF, [0x2CDE]), (0x2CE1, [0x2CE0]),
    (0x2CE3, [0x2CE2]), (0x2CEC, [0x2CEB]), (0x2CEE, [0x2CED]), (0x2CF3, [0x2CF2]),
    (0x2D00, [0x10A0]), (0x2D01, [0x10A1]), (0x2D02, [0x10A2]), (0x2D03, [0x10A3]),
    (0x2D04, [0x10A4]), (0x2D05, [0x10A5]), (0x2D06, [0x10A6]), (0x2D07, [0x10A7]),
    (0x2D08, [0x10A8]), (0x2D09, [0x10A9]), (0x2D0A, [0x10AA]), (0x2D0B, [0x10AB]),
    (0x2D0C, [0x10AC]), (0x2D0D, [0x10AD]), (0x2D0E, [0x10AE]), (0x2D0F, [0x10AF]),
    (0x2D10, [0x10B0]), (0x2D11, [0x10B1]), (0x2D12, [0x10B2]), (0x2D13, [0x10B3]),
    (0x2D14, [0x10B4]), (0x2D15, [0x10B5]), (0x2D16, [0x10B6]), (0x2D17, [0x10B7]),
    (0x2D18, [0x10B8]), (0x2D19, [0x10B9]), (0x2D1A, [0x10BA]), (0x2D1B, [0x10BB])]

/-- Uppercase mappings of the code points U+2D1C to U+A741. -/
def upperTable16 : List (Nat × List Nat) :=
  [(0x2D1C, [0x10BC]), (0x2D1D, [0x10BD]), (0x2D1E, [0x10BE]), (0x2D1F, [0x10BF]),
    (0x2D20, [0x10C0]), (0x2D21, [0x10C1]), (0x2D22, [0x10C2]), (0x2D23, [0x10C3]),
    (0x2D24, [0x10C4]), (0x2D25, [0x10C5]), (0x2D27, [0x10C7]), (0x2D2D, [0x10CD]),
    (0xA641, [0xA640]), (0xA643, [0xA642]), (0xA645, [0xA644]), (0xA647, [0xA646]),
    (0xA649, [0xA648]), (0xA64B, [0xA64A]), (0xA64D, [0xA64C]), (0xA64F, [0xA64E]),
    (0xA651, [0xA650]), (0xA653, [0xA652]), (0xA655, [0xA654]), (0xA657, [0xA656]),
    (0xA659, [0xA658]), (0xA65B, [0xA65A]), (0xA65D, [0xA65C]), (0xA65F, [0xA65E]),
    (0xA661, [0xA660]), (0xA663, [0xA662]), (0xA665, [0xA664]), (0xA667, [0xA666]),
    (0xA669, [0xA668]), (0xA66B, [0xA66A]), (0xA66D, [0xA66C]), (0xA681, [0xA680]),
    (0xA683, [0xA682]), (0xA685, [0xA684]), (0xA687, [0xA686]), (0xA689, [0xA688]),
    (0xA68B, [0xA68A]), (0xA68D, [0xA68C]), (0xA68F, [0xA68E]), (0xA691, [0xA690]),
    (0xA693, [0xA692]), (0xA695, [0xA694]), (0xA697, [0xA696]), (0xA699, [0xA698]),
    (0xA69B, [0xA69A]), (0xA723, [0xA722]), (0xA725, [0xA724]), (0xA727, [0xA726]),
    (0xA729, [0xA728]), (0xA72B, [0xA72A]), (0xA72D, [0xA72C]), (0xA72F, [0xA72E]),
    (0xA733, [0xA732]), (0xA735, [0xA734]), (0xA737, [0xA736]), (0xA739, [0xA738]),
    (0xA73B, [0xA73A]), (0xA73D, [0xA73C]), (0xA73F, [0xA73E]), (0xA741, [0xA740])]

/-- Uppercase mappings of the code points U+A743 to U+AB74. -/
def upperTable17 : List (Nat × List Nat) :=
  [(0xA743, [0xA742]), (0xA745, [0xA744]), (0xA747, [0xA746]), (0xA749, [0xA748]),
    (0xA74B, [0xA74A]), (0xA74D, [0xA74C]), (0xA74F, [0xA74E]), (0xA751, [0xA750]),
    (0xA753, [0xA752]), (0xA755, [0xA754]), (0xA757, [0xA756]), (0xA759, [0xA758]),
    (0xA75B, [0xA75A]), (0xA75D, [0xA75C]), (0xA75F, [0xA75E]), (0xA761, [0xA760]),
    (0xA763, [0xA762]), (0xA765, [0xA764]), (0xA767, [0xA766]), (0xA769, [0xA768]),
    (0xA76B, [0xA76A]), (0xA76D, [0xA76C]), (0xA76F, [0xA76E]), (0xA77A, [0xA779]),
    (0xA77C, [0xA77B]), (0xA77F, [0xA77E]), (0xA781, [0xA780]), (0xA783, [0xA782]),
    (0xA785, [0xA784]), (0xA787, [0xA786]), (0xA78C, [0xA78B]), (0xA791, [0xA790]),
    (0xA793, [0xA792]), (0xA794, [0xA7C4]), (0xA797, [0xA796]), (0xA799, [0xA798]),
    (0xA79B, [0xA79A]), (0xA79D, [0xA79C]), (0xA79F, [0xA79E]), (0xA7A1, [0xA7A0]),
    (0xA7A3, [0xA7A2]), (0xA7A5, [0xA7A4]), (0xA7A7, [0xA7A6]), (0xA7A9, [0xA7A8]),
    (0xA7B5, [0xA7B4]), (0xA7B7, [0xA7B6]), (0xA7B9, [0xA7B8]), (0xA7BB, [0xA7BA]),
    (0xA7BD, [0xA7BC]), (0xA7BF, [0xA7BE]), (0xA7C1, [0xA7C0]), (0xA7C3, [0xA7C2]),
    (0xA7C8, [0xA7C7]), (0xA7CA, [0xA7C9]), (0xA7D1, [0xA7D0]), (0xA7D7, [0xA7D6]),
    (0xA7D9, [0xA7D8]), (0xA7F6, [0xA7F5]), (0xAB53, [0xA7B3]), (0xAB70, [0x13A0]),
    (0xAB71, [0x13A1]), (0xAB72, [0x13A2]), (0xAB73, [0x13A3]), (0xAB74, [0x13A4])]

/-- Uppercase mappings of the code points U+AB75 to U+ABB4. -/
def upperTable18 : List (Nat × List Nat) :=
  [(0xAB75, [0x13A5]), (0xAB76, [0x13A6]), (0xAB77, [0x13A7]), (0xAB78, [0x13A8]),
    (0xAB79, [0x13A9]), (0xAB7A, [0x13AA]), (0xAB7B, [0x13AB]), (0xAB7C, [0x13AC]),
    (0xAB7D, [0x13AD]), (0xAB7E, [0x13AE]), (0xAB7F, [0x13AF]), (0xAB80, [0x13B0]),
    (0xAB81, [0x13B1]), (0xAB82, [0x13B2]), (0xAB83, [0x13B3]), (0xAB84, [0x13B4]),
    (0xAB85, [0x13B5]), (0xAB86, [0x13B6]), (0xAB87, [0x13B7]), (0xAB88, [0x13B8]),
    (0xAB89, [0x13B9]), (0xAB8A, [0x13BA]), (0xAB8B, [0x13BB]), (0xAB8C, [0x13BC]),
    (0xAB8D, [0x13BD]), (0xAB8E, [0x13BE]), (0xAB8F, [0x13BF]), (0xAB90, [0x13C0]),
    (0xAB91, [0x13C1]), (0xAB92, [0x13C2]), (0xAB93, [0x13C3]), (0xAB94, [0x13C4]),
    (0xAB95, [0x13C5]), (0xAB96, [0x13C6]), (0xAB97, [0x13C7]), (0xAB98, [0x13C8]),
    (0xAB99, [0x13C9]), (0xAB9A, [0x13CA]), (0xAB9B, [0x13CB]), (0xAB9C, [0x13CC]),
    (0xAB9D, [0x13CD]), (0xAB9E, [0x13CE]), (0xAB9F, [0x13CF]), (0xABA0, [0x13D0]),
    (0xABA1, [0x13D1]), (0xABA2, [0x13D2]), (0xABA3, [0x13D3]), (0xABA4, [0x13D4]),
    (0xABA5, [0x13D5]), (0xABA6, [0x13D6]), (0xABA7, [0x13D7]), (0xABA8, [0x13D8]),
    (0xABA9, [0x13D9]), (0xABAA, [0x13DA]), (0xABAB, [0x13DB]), (0xABAC, [0x13DC]),
    (0xABAD, [0x13DD]), (0xABAE, [0x13DE]), (0xABAF, [0x13DF]), (0xABB0, [0x13E0]),
    (0xABB1, [0x13E1]), (0xABB2, [0x13E2]), (0xABB3, [0x13E3]), (0xABB4, [0x13E4])]

/-- Uppercase mappings of the code points U+ABB5 to U+10436. -/
def upperTable19 : List (Nat × List Nat) :=
  [(0xABB5, [0x13E5]), (0xABB6, [0x13E6]), (0xABB7, [0x13E7]), (0xABB8, [0x13E8]),
    (0xABB9, [0x13E9]), (0xABBA, [0x13EA]), (0xABBB, [0x13EB]), (0xABBC, [0x13EC]),
    (0xABBD, [0x13ED]), (0xABBE, [0x13EE]), (0xABBF, [0x13EF]), (0xFB00, [0x46, 0x46]),
    (0xFB01, [0x46, 0x49]), (0xFB02, [0x46, 0x4C]), (0xFB03, [0x46, 0x46, 0x49]),
    (0xFB04, [0x46, 0x46, 0x4C]), (0xFB05, [0x53, 0x54]), (0xFB06, [0x53, 0x54]),
    (0xFB13, [0x544, 0x546]), (0xFB14, [0x544, 0x535]), (0xFB15, [0x544, 0x53B]),
    (0xFB16, [0x54E, 0x546]), (0xFB17, [0x544, 0x53D]), (0xFF41, [0xFF21]), (0xFF42, [0xFF22]),
    (0xFF43, [0xFF23]), (0xFF44, [0xFF24]), (0xFF45, [0xFF25]), (0xFF46, [0xFF26]),
    (0xFF47, [0xFF27]), (0xFF48, [0xFF28]), (0xFF49, [0xFF29]), (0xFF4A, [0xFF2A]),
    (0xFF4B, [0xFF2B]), (0xFF4C, [0xFF2C]), (0xFF4D, [0xFF2D]), (0xFF4E, [0xFF2E]),
    (0xFF4F, [0xFF2F]), (0xFF50, [0xFF30]), (0xFF51, [0xFF31]), (0xFF52, [0xFF32]),
    (0xFF53, [0xFF33]), (0xFF54, [0xFF34]), (0xFF55, [0xFF35]), (0xFF56, [0xFF36]),
    (0xFF57, [0xFF37]), (0xFF58, [0xFF38]), (0xFF59, [0xFF39]), (0xFF5A, [0xFF3A]),
    (0x10428, [0x10400]), (0x10429, [0x10401]), (0x1042A, [0x10402]), (0x1042B, [0x10403]),
    (0x1042C, [0x10404]), (0x1042D, [0x10405]), (0x1042E, [0x10406]), (0x1042F, [0x10407]),
    (0x10430, [0x10408]), (0x10431, [0x10409]), (0x10432, [0x1040A]), (0x10433, [0x1040B]),
    (0x10434, [0x1040C]), (0x10435, [0x1040D]), (0x10436, [0x1040E])]

/-- Uppercase mappings of the code points U+10437 to U+10599. -/
def upperTable20 : List (Nat × List Nat) :=
  [(0x10437, [0x1040F]), (0x10438, [0x10410]), (0x10439, [0x10411]), (0x1043A, [0x10412]),
    (0x1043B, [0x10413]), (0x1043C, [0x10414]), (0x1043D, [0x10415]), (0x1043E, [0x10416]),
    (0x1043F, [0x10417]), (0x10440, [0x10418]), (0x10441, [0x10419]), (0x10442, [0x1041A]),
    (0x10443, [0x1041B]), (0x10444, [0x1041C]), (0x10445, [0x1041D]), (0x10446, [0x1041E]),
    (0x10447, [0x1041F]), (0x10448, [0x10420]), (0x10449, [0x10421]), (0x1044A, [0x10422]),
    (0x1044B, [0x10423]), (0x1044C, [0x10424]), (0x1044D, [0x10425]), (0x1044E, [0x10426]),
    (0x1044F, [0x10427]), (0x104D8, [0x104B0]), (0x104D9, [0x104B1]), (0x104DA, [0x104B2]),
    (0x104DB, [0x104B3]), (0x104DC, [0x104B4]), (0x104DD, [0x104B5]), (0x104DE, [0x104B6]),
    (0x104DF, [0x104B7]), (0x104E0, [0x104B8]), (0x104E1, [0x104B9]), (0x104E2, [0x104BA]),
    (0x104E3, [0x104BB]), (0x104E4, [0x104BC]), (0x104E5, [0x104BD]), (0x104E6, [0x104BE]),
    (0x104E7, [0x104BF]), (0x104E8, [0x104C0]), (0x104E9, [0x104C1]), (0x104EA, [0x104C2]),
    (0x104EB, [0x104C3]), (0x104EC, [0x104C4]), (0x104ED, [0x104C5]), (0x104EE, [0x104C6]),
    (0x104EF, [0x104C7]), (0x104F0, [0x104C8]), (0x104F1, [0x104C9]), (0x104F2, [0x104CA]),
    (0x104F3, [0x104CB]), (0x104F4, [0x104CC]), (0x104F5, [0x104CD]), (0x104F6, [0x104CE]),
    (0x104F7, [0x104CF]), (0x104F8, [0x104D0]), (0x104F9, [0x104D1]), (0x104FA, [0x104D2]),
    (0x104FB, [0x104D3]), (0x10597, [0x10570]), (0x10598, [0x10571]), (0x10599, [0x10572])]

/-- Uppercase mappings of the code points U+1059A to U+10CDF. -/
def upperTable21 : List (Nat × List Nat) :=
  [(0x1059A, [0x10573]), (0x1059B, [0x10574]), (0x1059C, [0x10575]), (0x1059D, [0x10576]),
    (0x1059E, [0x10577]), (0x1059F, [0x10578]), (0x105A0, [0x10579]), (0x105A1, [0x1057A]),
    (0x105A3, [0x1057C]), (0x105A4, [0x1057D]), (0x105A5, [0x1057E]), (0x105A6, [0x1057F]),
    (0x105A7, [0x10580]), (0x105A8, [0x10581]), (0x105A9, [0x10582]), (0x105AA, [0x10583]),
    (0x105AB, [0x10584]), (0x105AC, [0x10585]), (0x105AD, [0x10586]), (0x105AE, [0x10587]),
    (0x105AF, [0x10588]), (0x105B0, [0x10589]), (0x105B1, [0x1058A]), (0x105B3, [0x1058C]),
    (0x105B4, [0x1058D]), (0x105B5, [0x1058E]), (0x105B6, [0x1058F]), (0x105B7, [0x10590]),
    (0x105B8, [0x10591]), (0x105B9, [0x10592]), (0x105BB, [0x10594]), (0x105BC, [0x10595]),
    (0x10CC0, [0x10C80]), (0x10CC1, [0x10C81]), (0x10CC2, [0x10C82]), (0x10CC3, [0x10C83]),
    (0x10CC4, [0x10C84]), (0x10CC5, [0x10C85]), (0x10CC6, [0x10C86]), (0x10CC7, [0x10C87]),
    (0x10CC8, [0x10C88]), (0x10CC9, [0x10C89]), (0x10CCA, [0x10C8A]), (0x10CCB, [0x10C8B]),
    (0x10CCC, [0x10C8C]), (0x10CCD, [0x10C8D]), (0x10CCE, [0x10C8E]), (0x10CCF, [0x10C8F]),
    (0x10CD0, [0x10C90]), (0x10CD1, [0x10C91]), (0x10CD2, [0x10C92]), (0x10CD3, [0x10C93]),
    (0x10CD4, [0x10C94]), (0x10CD5, [0x10C95]), (0x10CD6, [0x10C96]), (0x10CD7, [0x10C97]),
    (0x10CD8, [0x10C98]), (0x10CD9, [0x10C99]), (0x10CDA, [0x10C9A]), (0x10CDB, [0x10C9B]),
    (0x10CDC, [0x10C9C]), (0x10CDD, [0x10C9D]), (0x10CDE, [0x10C9E]), (0x10CDF, [0x10C9F])]

/-- Uppercase mappings of the code points U+10CE0 to U+16E6C. -/
def upperTable22 : List (Nat × List Nat) :=
  [(0x10CE0, [0x10CA0]), (0x10CE1, [0x10CA1]), (0x10CE2, [0x10CA2]), (0x10CE3, [0x10CA3]),
    (0x10CE4, [0x10CA4]), (0x10CE5, [0x10CA5]), (0x10CE6, [0x10CA6]), (0x10CE7, [0x10CA7]),
    (0x10CE8, [0x10CA8]), (0x10CE9, [0x10CA9]), (0x10CEA, [0x10CAA]), (0x10CEB, [0x10CAB]),
    (0x10CEC, [0x10CAC]), (0x10CED, [0x10CAD]), (0x10CEE, [0x10CAE]), (0x10CEF, [0x10CAF]),
    (0x10CF0, [0x10CB0]), (0x10CF1, [0x10CB1]), (0x10CF2, [0x10CB2]), (0x118C0, [0x118A0]),
    (0x118C1, [0x118A1]), (0x118C2, [0x118A2]), (0x118C3, [0x118A3]), (0x118C4, [0x118A4]),
    (0x118C5, [0x118A5]), (0x118C6, [0x118A6]), (0x118C7, [0x118A7]), (0x118C8, [0x118A8]),
    (0x118C9, [0x118A9]), (0x118CA, [0x118AA]), (0x118CB, [0x118AB]), (0x118CC, [0x118AC]),
    (0x118CD, [0x118AD]), (0x118CE, [0x118AE]), (0x118CF, [0x118AF]), (0x118D0, [0x118B0]),
    (0x118D1, [0x118B1]), (0x118D2, [0x118B2]), (0x118D3, [0x118B3]), (0x118D4, [0x118B4]),
    (0x118D5, [0x118B5]), (0x118D6, [0x118B6]), (0x118D7, [0x118B7]), (0x118D8, [0x118B8]),
    (0x118D9, [0x118B9]), (0x118DA, [0x118BA]), (0x118DB, [0x118BB]), (0x118DC, [0x118BC]),
    (0x118DD, [0x118BD]), (0x118DE, [0x118BE]), (0x118DF, [0x118BF]), (0x16E60, [0x16E40]),
    (0x16E61, [0x16E41]), (0x16E62, [0x16E42]), (0x16E63, [0x16E43]), (0x16E64, [0x16E44]),
    (0x16E65, [0x16E45]), (0x16E66, [0x16E46]), (0x16E67, [0x16E47]), (0x16E68, [0x16E48]),
    (0x16E69, [0x16E49]), (0x16E6A, [0x16E4A]), (0x16E6B, [0x16E4B]), (0x16E6C, [0x16E4C])]

/-- Uppercase mappings of the code points U+16E6D to U+1E943. -/
def upperTable23 : List (Nat × List Nat) :=
  [(0x16E6D, [0x16E4D]), (0x16E6E, [0x16E4E]), (0x16E6F, [0x16E4F]), (0x16E70, [0x16E50]),
    (0x16E71, [0x16E51]), (0x16E72, [0x16E52]), (0x16E73, [0x16E53]), (0x16E74, [0x16E54]),
    (0x16E75, [0x16E55]), (0x16E76, [0x16E56]), (0x16E77, [0x16E57]), (0x16E78, [0x16E58]),
    (0x16E79, [0x16E59]), (0x16E7A, [0x16E5A]), (0x16E7B, [0x16E5B]), (0x16E7C, [0x16E5C]),
    (0x16E7D, [0x16E5D]), (0x16E7E, [0x16E5E]), (0x16E7F, [0x16E5F]), (0x1E922, [0x1E900]),
    (0x1E923, [0x1E901]), (0x1E924, [0x1E902]), (0x1E925, [0x1E903]), (0x1E926, [0x1E904]),
    (0x1E927, [0x1E905]), (0x1E928, [0x1E906]), (0x1E929, [0x1E907]), (0x1E92A, [0x1E908]),
    (0x1E92B, [0x1E909]), (0x1E92C, [0x1E90A]), (0x1E92D, [0x1E90B]), (0x1E92E, [0x1E90C]),
    (0x1E92F, [0x1E90D]), (0x1E930, [0x1E90E]), (0x1E931, [0x1E90F]), (0x1E932, [0x1E910]),
    (0x1E933, [0x1E911]), (0x1E934, [0x1E912]), (0x1E935, [0x1E913]), (0x1E936, [0x1E914]),
    (0x1E937, [0x1E915]), (0x1E938, [0x1E916]), (0x1E939, [0x1E917]), (0x1E93A, [0x1E918]),
    (0x1E93B, [0x1E919]), (0x1E93C, [0x1E91A]), (0x1E93D, [0x1E91B]), (0x1E93E, [0x1E91C]),
    (0x1E93F, [0x1E91D]), (0x1E940, [0x1E91E]), (0x1E941, [0x1E91F]), (0x1E942, [0x1E920]),
    (0x1E943, [0x1E921])]

/-- The uppercase mapping of Unicode 14.0 (`UnicodeData.txt` and the
unconditional entries of `SpecialCasing.txt`): every code point that does not
map to itself, in increasing order, with the code points it maps to. -/
def unicodeUpperTable : List (Nat × List Nat) :=
  upperTable0 ++ upperTable1 ++ upperTable2 ++ upperTable3 ++ upperTable4 ++ upperTable5 ++
    upperTable6 ++ upperTable7 ++ upperTable8 ++ upperTable9 ++ upperTable10 ++ upperTable11 ++
    upperTable12 ++ upperTable13 ++ upperTable14 ++ upperTable15 ++ upperTable16 ++ upperTable17 ++
    upperTable18 ++ upperTable19 ++ upperTable20 ++ upperTable21 ++ upperTable22 ++ upperTable23

/-- Look a code point up in a table ordered by code point. -/
def upperLookup (n : Nat) : List (Nat × List Nat) → Option (List Nat)
  | [] => none
  | (k, v) :: rest => if n = k then some v else if n < k then none else upperLookup n rest

/-- The uppercase form of one code point (`toUppercase` of the Unicode Default
Case Conversion): one to three code points. -/
def upperChar (c : Char) : List Char :=
  match upperLookup c.toNat unicodeUpperTable with
  | some v => v.map Char.ofNat
  | none => [c]

/-- Model of `s.toUpperCase()`. -/
def toUpperCase (s : String) : String := ⟨s.data.flatMap upperChar⟩

/-- Split a character list at every `'/'`; the result is never empty. -/
def splitSlashChars : List Char → List (List Char)
  | [] => [[]]
  | c :: cs =>
    if c = '/' then [] :: splitSlashChars cs
    else
      match splitSlashChars cs with
      | [] => [[c]]
      | p :: ps => (c :: p) :: ps

/-- Model of `s.split('/')`. -/
def jsSplitSlash (s : String) : List String := (splitSlashChars s.data).map String.mk

/-- Model of `parts.join('&')`. -/
def jsJoinAmp : List String → String
  | [] => ""
  | [p] => p
  | p :: q :: ps => p ++ "&" ++ jsJoinAmp (q :: ps)

/-- UTF-16 code units of one code point. -/
def utf16Units (c : Char) : List Nat :=
  let n := c.toNat
  if n < 0x10000 then [n]
  else [0xD800 + (n - 0x10000) / 0x400, 0xDC00 + (n - 0x10000) % 0x400]

/-- UTF-16 code units of a string. -/
def codeUnits (s : String) : List Nat := s.data.flatMap utf16Units

/-- Lexicographic `≤` on code-unit sequences. -/
def unitsLe : List Nat → List Nat → Bool
  | [], _ => true
  | _ :: _, [] => false
  | a :: as, b :: bs => a < b || (a == b && unitsLe as bs)

/-- The order used by `sort()` without comparator: `a` is not after `b`. -/
def jsStrLe (a b : String) : Bool := unitsLe (codeUnits a) (codeUnits b)

/-- Insert into an ordered list, before the first element that is not smaller. -/
def sortInsert (a : String) : List String → List String
  | [] => [a]
  | b :: bs => if jsStrLe a b then a :: b :: bs else b :: sortInsert a bs

/-- Model of `arr.sort()` on an array of strings (stable insertion sort). -/
def jsSort : List String → List String
  | [] => []
  | a :: as => sortInsert a (jsSort as)

/-! ## Records -/

/-- A substance record of the server's JSON `results` array. -/
structure SubstanceRecord where
  substance_name : Option String := none
  cas_rn : Option String := none
  classification : Option String := none
  reason_code : Option String := none
  source : Option String := none
  reporting_threshold : Option String := none
  first_added : Option String := none
  last_revised : Option String := none
  generic_examples : Option String := none
deriving DecidableEq, Repr

/-- Model of `v || d` on an optional string: `d` when `v` is absent or empty. -/
def orElse (v : Option String) (d : String) : String :=
  match v with
  | none => d
  | some s => if s = "" then d else s

/-- Model of `v ?? d` on an optional string: `d` only when `v` is absent. -/
def nullish (v : Option String) (d : String) : String :=
  match v with
  | none => d
  | some s => s

/-! ## `displayResults`: normalisation -/

/-- Mirror of `result.classification ? result.classification.trim() : ''`. -/
def classificationOf (r : SubstanceRecord) : String :=
  match r.classification with
  | none => ""
  | some s => if s = "" then "" else jsTrim s

/-- Mirror of `result.reason_code ? result.reason_code.toUpperCase().trim() : ''`
applied to the field. -/
def rawReasonCodeOf (rc : Option String) : String :=
  match rc with
  | none => ""
  | some s => if s = "" then "" else jsTrim (toUpperCase s)

/-- The variable `rawReasonCode` of a record. -/
def rawReasonCode (r : SubstanceRecord) : String := rawReasonCodeOf r.reason_code

/-- Mirror of `rawReasonCode.split('/').map(rc => rc.trim()).filter(rc => rc !== '')`. -/
def reasonCodesArrayOf (rc : Option String) : List String :=
  ((jsSplitSlash (rawReasonCodeOf rc)).map jsTrim).filter (fun p => p ≠ "")

/-- Mirror of `reasonCodesArray.sort().join('&')`: the canonical key. -/
def sortedReasonCodeStringOf (rc : Option String) : String :=
  jsJoinAmp (jsSort (reasonCodesArrayOf rc))

/-- The variable `reasonCodesArray` of a record. -/
def reasonCodesArray (r : SubstanceRecord) : List String := reasonCodesArrayOf r.reason_code

/-- The variable `sortedReasonCodeString` of a record. -/
def sortedReasonCodeString (r : SubstanceRecord) : String :=
  sortedReasonCodeStringOf r.reason_code

/-! ## `displayResults`: the summary -/

/-- The part shared by every template literal assigned to
`classificationSummaryContent`: heading, name, CAS number and
`is classified as`, followed by the branch's own text. -/
def summaryText (name cas rest : String) : String :=
  "<strong>Summary:</strong><br>" ++ name ++ " (CAS RN: " ++ cas ++ ") is classified as " ++ rest

/-- Branches of `classification === 'D/P'`, by canonical key. -/
def restDP (key : String) : String :=
  if key = "FA&FI&LR" then
    "Declarable/Prohibited (D/P). The substance has mixed classification, meaning it can be declared or prohibited depending on the application. It is tracked for information, legally regulated, and under assessment. Must be declared if present above 0.1%."
  else if key = "FA&LR" then
    "Declarable/Prohibited (D/P). Declared or prohibited, under assessment and legally restricted. Must be declared if present above 0.1%."
  else if key = "FI&LR" then
    "Declarable/Prohibited (D/P). Both declarable and prohibited, tracked for information and legally regulated. Must be declared if present above 0.1%."
  else if key = "FA" then
    "Declarable/Prohibited (D/P). Either declarable or prohibited, with ongoing assessment for stricter regulation. Must be declared if present above 0.1%."
  else if key = "LR" then
    "Declarable/Prohibited (D/P). The substance has both allowed and prohibited uses, requiring careful evaluation. It is also legally regulated. Must be declared if present above 0.1%."
  else
    "Declarable/Prohibited (D/P). This substance has both allowed and prohibited uses in at least one region/market. Evaluate the substance entry to determine if individual substances are declarable or prohibited. Must be declared if present above 0.1%."

/-- Branches of `classification === 'P'`, by canonical key. -/
def restP (key : String) : String :=
  if key = "LR" then
    "Prohibited, meaning it is banned for automotive use in at least one region or market. Legally Regulated status, indicating restrictions due to health and environmental risks."
  else if key = "FA" then
    "Prohibited, meaning it is banned for automotive use in at least one region or market. It is also For Assessment (FA), meaning it is under review for possible regulation adjustments."
  else
    "Prohibited, meaning it is banned for automotive use in at least one region or market."

/-- Branches of `classification === 'D'`, by canonical key. -/
def restD (key : String) : String :=
  if key = "FA&FI&LR" then
    "Declarable (D). Declared, tracked for information, legally regulated, and under assessment. Must be declared if it exceeds defined threshold limits."
  else if key = "FA&FI" then
    "Declarable (D). Declared for information, but also under assessment for regulation. Must be declared if it exceeds defined threshold limits."
  else if key = "FI&LR" then
    "Declarable (D). Declared for information and legally regulated in at least one market. Must be declared if it exceeds defined threshold limits."
  else if key = "FA&LR" then
    "Declarable (D). Declared, legally regulated, and under assessment for stricter control. Must be declared if it exceeds defined threshold limits."
  else if key = "FA" then
    "Declarable (D). Must be declared and is under review for potential future regulation. Must be declared if it exceeds defined threshold limits."
  else if key = "LR" then
    "Declarable (D). Must be declared and is legally restricted due to environmental or health risks. Must be declared if it exceeds defined threshold limits."
  else if key = "FI" then
    "Declarable (D). Must be declared if above threshold but tracked only for information, without current regulatory restrictions. Must be declared if it exceeds defined threshold limits."
  else
    "Declarable (D). This substance must be declared if it exceeds defined threshold limits."

/-- Text of the `classification === 'FI'` branch. -/
def restFI : String :=
  "For Information (FI). This substance is tracked for informational purposes; no current regulatory prohibition or de-selection based solely on GADSL listing."

/-- Text of the final `else` branch, from the trimmed classification and the
variable `rawReasonCode`. -/
def restFallback (classification rawRc : String) : String :=
  orElse (some classification) "N/A" ++ ". Reason Code: " ++ orElse (some rawRc) "N/A" ++
    ". (Definition not explicitly available in this tool. Refer to official GADSL documentation.)"

/-- The global fallback summary of a record. -/
def fallbackSummary (r : SubstanceRecord) : String :=
  summaryText (orElse r.substance_name "N/A") (orElse r.cas_rn "N/A")
    (restFallback (classificationOf r) (rawReasonCode r))

/-- The pair `(classificationSummaryContent, isCustomSummaryGenerated)` at the
end of the `if`/`else if` chain of `displayResults`. -/
def classificationSummary (r : SubstanceRecord) : String × Bool :=
  let substanceNameForSummary := orElse r.substance_name "N/A"
  let casRnForSummary := orElse r.cas_rn "N/A"
  let classification := classificationOf r
  let sortedKey := sortedReasonCodeString r
  if classification = "D/P" then
    (summaryText substanceNameForSummary casRnForSummary (restDP sortedKey), true)
  else if classification = "P" then
    (summaryText substanceNameForSummary casRnForSummary (restP sortedKey), true)
  else if classification = "D" then
    (summaryText substanceNameForSummary casRnForSummary (restD sortedKey), true)
  else if classification = "FI" then
    (summaryText substanceNameForSummary casRnForSummary restFI, true)
  else
    (fallbackSummary r, false)

/-- The variable `classificationSummaryContent`. -/
def classificationSummaryContent (r : SubstanceRecord) : String := (classificationSummary r).1

/-- The variable `isCustomSummaryGenerated`. -/
def isCustomSummaryGenerated (r : SubstanceRecord) : Bool := (classificationSummary r).2

/-- The template literal `fullSummaryBoxHtml`. -/
def fullSummaryBoxHtml (r : SubstanceRecord) : String :=
  "\n                <div class=\"summary-box\">\n                    " ++
    classificationSummaryContent r ++
    "\n                </div>\n            "

/-! ## `displayResults`: the detail lines -/

/-- The array `displayOrderForDetails`: `(key, label)` pairs. -/
def displayOrderForDetails : List (String × String) :=
  [("substance_name", "Substance Name"),
   ("cas_rn", "CAS RN"),
   ("source", "Source"),
   ("reporting_threshold", "Reporting Threshold"),
   ("first_added", "First Added"),
   ("last_revised", "Last Revised"),
   ("generic_examples", "Generic Examples")]

/-- Property access `result[key]`. -/
def SubstanceRecord.get (r : SubstanceRecord) (key : String) : Option String :=
  if key = "substance_name" then r.substance_name
  else if key = "cas_rn" then r.cas_rn
  else if key = "classification" then r.classification
  else if key = "reason_code" then r.reason_code
  else if key = "source" then r.source
  else if key = "reporting_threshold" then r.reporting_threshold
  else if key = "first_added" then r.first_added
  else if key = "last_revised" then r.last_revised
  else if key = "generic_examples" then r.generic_examples
  else none

/-- The array `filteredDisplayOrder`. -/
def filteredDisplayOrder (isCustom : Bool) : List (String × String) :=
  displayOrderForDetails.filter fun item =>
    if isCustom && (item.1 == "classification" || item.1 == "reason_code") then false else true

/-- The value shown for one item of `filteredDisplayOrder`. -/
def detailValue (r : SubstanceRecord) (key : String) : String :=
  let value := nullish (r.get key) "N/A"
  if key = "reporting_threshold" ∧ (value = "N/A" ∨ jsTrim value = "") then "0.1%" else value

/-- Mirror of `createDetailElement`: the `innerHTML` of the paragraph. -/
def createDetailElement (label value : String) : String :=
  "<strong>" ++ label ++ ":</strong> " ++ value

/-- The paragraphs appended to `resultItem` after the summary box, in order. -/
def detailElements (r : SubstanceRecord) : List String :=
  (if !isCustomSummaryGenerated r then
    [createDetailElement "Classification" (orElse (some (classificationOf r)) "N/A"),
     createDetailElement "Reason Code" (orElse (some (rawReasonCode r)) "N/A")]
   else []) ++
  (filteredDisplayOrder (isCustomSummaryGenerated r)).map fun item =>
    createDetailElement item.2 (detailValue r item.1)

/-- A child node of `searchResultsDiv`. -/
inductive Node where
  /-- Markup assigned through `innerHTML`. -/
  | html (markup : String)
  /-- A `div.result-item`: the summary box markup and the detail paragraphs. -/
  | resultItem (summaryBox : String) (details : List String)
  /-- A separator `hr`. -/
  | hr
deriving DecidableEq, Repr

/-- The `resultItem` built for one record. -/
def renderRecord (r : SubstanceRecord) : Node :=
  Node.resultItem (fullSummaryBoxHtml r) (detailElements r)

/-- Mirror of `displayResults`: the children of `searchResultsDiv` afterwards. -/
def displayResults (results : List SubstanceRecord) : List Node :=
  if results.length = 0 then [Node.html "<p>No GADSL substance found.</p>"]
  else results.flatMap fun r => [renderRecord r, Node.hr]

/-! ## Page state and the network -/

/-- An entry of `msdsPdfFile.files`: the properties the handler reads. -/
structure FileHandle where
  name : String
  type : String
  size : Nat
deriving DecidableEq, Repr

/-- The DOM state the script reads and writes. -/
structure Page where
  /-- The property `errorMessageDiv.textContent`. -/
  errorText : String
  /-- The property `errorMessageDiv.style.display`. -/
  errorDisplay : String
  /-- Children of `searchResultsDiv`. -/
  searchResults : List Node
  /-- The property `progressBar.style.display`. -/
  progressDisplay : String
  /-- Value of the input `casRn`. -/
  casRn : String
  /-- Value of the input `substanceName`. -/
  substanceName : String
  /-- The list `msdsPdfFile.files`. -/
  files : List FileHandle
deriving DecidableEq, Repr

/-- Body of a request passed to `fetch`. -/
inductive RequestBody where
  /-- The object given to `JSON.stringify`, as its key/value pairs. -/
  | json (fields : List (String × String))
  /-- A `FormData` with one file appended under `field`. -/
  | formData (field : String) (file : FileHandle)
deriving DecidableEq, Repr

/-- One call of `fetch`. -/
structure Request where
  endpoint : String
  method : String
  headers : List (String × String)
  body : RequestBody
deriving DecidableEq, Repr

/-- What `response.json()` yields. -/
inductive JsonBody where
  /-- The body is missing or is not JSON: `response.json()` rejects. -/
  | parseError
  /-- The body is the JSON value `null`: reading a property of it throws. -/
  | null
  /-- Any other JSON value, with its `error` and `results` properties
  (both absent for a value that is not an object). -/
  | object (error : Option String) (results : Option (List SubstanceRecord))
deriving DecidableEq, Repr

/-- What the awaited `fetch` does. -/
inductive FetchOutcome where
  /-- The call to `fetch` rejects (transport failure). -/
  | networkError
  /-- It resolves to a response. -/
  | response (ok : Bool) (status : Nat) (statusText : String) (body : JsonBody)
deriving DecidableEq, Repr

/-- Mirror of `clearErrorMessage`. -/
def clearErrorMessage (p : Page) : Page :=
  { p with errorText := "", errorDisplay := "none" }

/-- Mirror of `showErrorMessage`. -/
def showErrorMessage (message : String) (p : Page) : Page :=
  { p with errorText := message, errorDisplay := "block", searchResults := [] }

/-- Assignment `searchResultsDiv.innerHTML = markup`. -/
def setInnerHTML (markup : String) (p : Page) : Page :=
  { p with searchResults := if markup = "" then [] else [Node.html markup] }

/-- Placeholder markup written by `clearAllSearchElements`. -/
def initialPlaceholderHtml : String :=
  "\n            <div class=\"result-item initial-placeholder\">\n                <p>No results yet. Perform a search or upload a PDF.</p>\n            </div>\n        "

/-- Mirror of `clearAllSearchElements`. -/
def clearAllSearchElements (p : Page) : Page :=
  let p := { p with casRn := "", substanceName := "", files := [] }
  let p := setInnerHTML initialPlaceholderHtml p
  let p := clearErrorMessage p
  { p with progressDisplay := "none" }

/-- Markup of the search handler when `results` is empty or missing. -/
def notListedHtml : String :=
  "\n                        <div class=\"not-listed-message\">\n                            <h3>Substance Not Listed in GADSL</h3>\n                            <p>If a substance is not listed in GADSL, it generally means:</p>\n                            <ul>\n                                <li><strong>Not a Known Concern:</strong> It isn't classified as regulated, restricted, or declarable.</li>\n                                <li><strong>No Compliance Requirement:</strong> No legal or voluntary reporting obligations apply.</li>\n                                <li><strong>New or Unclassified:</strong> It may be newly introduced or not yet reviewed.</li>\n                                <li><strong>Application-Specific:</strong> Its use in automotive products doesn’t pose a known risk.</li>\n                            </ul>\n                            <p><strong>However, absence from GADSL doesn’t guarantee safety or unrestricted use. Manufacturers should still check local regulations (REACH, TSCA), environmental impact, and occupational health risks.</strong></p>\n                        </div>\n                    "

/-- Markup of the upload handler when `results` is empty or missing. -/
def noSubstancesInPdfHtml : String :=
  "\n                        <div class=\"not-listed-message\">\n                            <h3>No GADSL Substances Found in PDF</h3>\n                            <p>Our analysis of the uploaded PDF did not identify any substances listed in the Global Automotive Declarable Substance List (GADSL).</p>\n                            <ul>\n                                <li>This might be due to the PDF format (e.g., poor scan quality or image-based content).</li>\n                                <li>The substances in your document might genuinely not be present in the current GADSL.</li>\n                                <li>Always cross-check manually with the official GADSL if in doubt.</li>\n                            </ul>\n                        </div>\n                    "

/-- The `catch` block of both handlers: the generic message is shown only
when `errorMessageDiv.textContent` is empty. -/
def catchBlock (generic : String) (p : Page) : Page :=
  if p.errorText = "" then showErrorMessage generic p else p

/-- The `try`/`catch` part of both handlers after `fetch` has been awaited:
`emptyHtml` is the markup for an empty result list and `generic` the message
of the `catch` block. -/
def handleOutcome (emptyHtml generic : String) (net : FetchOutcome) (p : Page) : Page :=
  match net with
  | FetchOutcome.networkError => catchBlock generic p
  | FetchOutcome.response ok status statusText body =>
    if !ok then
      match body with
      | JsonBody.parseError => catchBlock generic p
      | JsonBody.null => catchBlock generic p
      | JsonBody.object error _ =>
        catchBlock generic
          (showErrorMessage (orElse error ("Error: " ++ toString status ++ " " ++ statusText)) p)
    else
      match body with
      | JsonBody.parseError => catchBlock generic p
      | JsonBody.null => catchBlock generic p
      | JsonBody.object _ results =>
        match results with
        | some (r :: rs) => { p with searchResults := displayResults (r :: rs) }
        | _ => setInnerHTML emptyHtml p

/-- The `finally` block of both handlers. -/
def hideProgress (p : Page) : Page := { p with progressDisplay := "none" }

/-! ## Search form submit handler -/

/-- The request of the search handler. -/
def searchRequest (endpoint : String) (payload : List (String × String)) : Request :=
  { endpoint := endpoint, method := "POST",
    headers := [("Content-Type", "application/json")],
    body := RequestBody.json payload }

/-- The `try`/`catch`/`finally` statement of the search handler. -/
def searchFetch (endpoint : String) (payload : List (String × String))
    (net : FetchOutcome) (p : Page) : Page × List Request :=
  (hideProgress
    (handleOutcome notListedHtml
      "An error occurred while searching. Check console logs for details." net p),
   [searchRequest endpoint payload])

/-- The rest of a listener once `fetch` has been called. The listener is
suspended at `await fetch(...)` and, when a response arrives, again at
`await response.json()`; `duringFetch` and `duringBody` are what other
listeners do to the page during these two suspensions. A rejected `fetch` goes
to the `catch` block at once; nothing between the two awaits reads or writes
the page. -/
def resumeAfterFetch (emptyHtml generic : String) (net : FetchOutcome)
    (duringFetch duringBody : Page → Page) (p : Page) : Page :=
  match net with
  | FetchOutcome.networkError =>
    hideProgress (handleOutcome emptyHtml generic FetchOutcome.networkError (duringFetch p))
  | FetchOutcome.response ok status statusText body =>
    hideProgress
      (handleOutcome emptyHtml generic (FetchOutcome.response ok status statusText body)
        (duringBody (duringFetch p)))

/-- Mirror of the `submit` listener of `searchForm`: `submitterId` is
`event.submitter ? event.submitter.id : null`, `net` is what the awaited
`fetch` does if it is called, `duringFetch` and `duringBody` are the writes of
other listeners while this one is suspended. Returns the page when the listener
finishes and the requests it issued. -/
def searchSubmitAsync (submitterId : Option String) (net : FetchOutcome)
    (duringFetch duringBody : Page → Page) (p₀ : Page) : Page × List Request :=
  let p := clearErrorMessage p₀
  let p := setInnerHTML "" p
  let p := { p with progressDisplay := "block" }
  if submitterId = some "searchCasButton" then
    let casNumber := jsTrim p.casRn
    if casNumber = "" then
      (hideProgress (showErrorMessage "Please enter a CAS Number." p), [])
    else
      (resumeAfterFetch notListedHtml
          "An error occurred while searching. Check console logs for details." net
          duringFetch duringBody p,
        [searchRequest "/lookup_by_cas_rn" [("cas_rn", casNumber)]])
  else if submitterId = some "searchNameButton" then
    let substanceName := jsTrim p.substanceName
    if substanceName = "" then
      (hideProgress (showErrorMessage "Please enter a Substance Name." p), [])
    else
      (resumeAfterFetch notListedHtml
          "An error occurred while searching. Check console logs for details." net
          duringFetch duringBody p,
        [searchRequest "/lookup_by_substance_name" [("substance_name", substanceName)]])
  else
    (hideProgress (showErrorMessage "Invalid search action." p), [])

/-- The `submit` listener run on its own: no other listener writes to the page
while it is suspended. -/
def searchSubmit (submitterId : Option String) (net : FetchOutcome) (p₀ : Page) :
    Page × List Request :=
  searchSubmitAsync submitterId net id id p₀

/-- The page on which the search listener is suspended at `await fetch(...)`. -/
def searchPending (p₀ : Page) : Page :=
  { setInnerHTML "" (clearErrorMessage p₀) with progressDisplay := "block" }

/-! ## PDF upload click handler -/

/-- The constant `MAX_FILE_SIZE`. -/
def MAX_FILE_SIZE : Nat := 5 * 1024 * 1024

/-- The request of the upload handler. -/
def uploadRequest (file : FileHandle) : Request :=
  { endpoint := "/upload_msds_pdf", method := "POST", headers := [],
    body := RequestBody.formData "msds_pdf" file }

/-- Mirror of the `click` listener of `uploadPdfButton`; `duringFetch` and
`duringBody` are the writes of other listeners while this one is suspended.
Returns the page when the listener finishes and the requests it issued. -/
def uploadClickAsync (net : FetchOutcome) (duringFetch duringBody : Page → Page) (p₀ : Page) :
    Page × List Request :=
  let p := clearErrorMessage p₀
  let p := setInnerHTML "" p
  match p.files with
  | [] => (showErrorMessage "Please select a PDF file." p, [])
  | file :: _ =>
    if file.type ≠ "application/pdf" then
      (showErrorMessage "Upload a valid PDF file." p, [])
    else if file.size > MAX_FILE_SIZE then
      (showErrorMessage
        ("File size exceeds " ++ toString (MAX_FILE_SIZE / (1024 * 1024)) ++
          "MB. Please upload a smaller file.") p, [])
    else
      let p := { p with progressDisplay := "block" }
      (resumeAfterFetch noSubstancesInPdfHtml
          "An error occurred during PDF processing. Check console logs." net
          duringFetch duringBody p,
       [uploadRequest file])

/-- The `click` listener run on its own: no other listener writes to the page
while it is suspended. -/
def uploadClick (net : FetchOutcome) (p₀ : Page) : Page × List Request :=
  uploadClickAsync net id id p₀

/-! ## The listeners run on their own -/

theorem resumeAfterFetch_id (emptyHtml generic : String) (net : FetchOutcome) (p : Page) :
    resumeAfterFetch emptyHtml generic net id id p =
      hideProgress (handleOutcome emptyHtml generic net p) := by
  cases net <;> rfl

/-- The search listener run on its own, statement by statement. -/
theorem searchSubmit_isolated (submitterId : Option String) (net : FetchOutcome) (p₀ : Page) :
    searchSubmit submitterId net p₀ =
      (let p := clearErrorMessage p₀
       let p := setInnerHTML "" p
       let p := { p with progressDisplay := "block" }
       if submitterId = some "searchCasButton" then
         let casNumber := jsTrim p.casRn
         if casNumber = "" then
           (hideProgress (showErrorMessage "Please enter a CAS Number." p), [])
         else
           searchFetch "/lookup_by_cas_rn" [("cas_rn", casNumber)] net p
       else if submitterId = some "searchNameButton" then
         let substanceName := jsTrim p.substanceName
         if substanceName = "" then
           (hideProgress (showErrorMessage "Please enter a Substance Name." p), [])
         else
           searchFetch "/lookup_by_substance_name" [("substance_name", substanceName)] net p
       else
         (hideProgress (showErrorMessage "Invalid search action." p), [])) := by
  unfold searchSubmit searchSubmitAsync searchFetch
  simp only [resumeAfterFetch_id]

/-- The upload listener run on its own, statement by statement. -/
theorem uploadClick_isolated (net : FetchOutcome) (p₀ : Page) :
    uploadClick net p₀ =
      (let p := clearErrorMessage p₀
       let p := setInnerHTML "" p
       match p.files with
       | [] => (showErrorMessage "Please select a PDF file." p, [])
       | file :: _ =>
         if file.type ≠ "application/pdf" then
           (showErrorMessage "Upload a valid PDF file." p, [])
         else if file.size > MAX_FILE_SIZE then
           (showErrorMessage
             ("File size exceeds " ++ toString (MAX_FILE_SIZE / (1024 * 1024)) ++
               "MB. Please upload a smaller file.") p, [])
         else
           let p := { p with progressDisplay := "block" }
           (hideProgress
             (handleOutcome noSubstancesInPdfHtml
               "An error occurred during PDF processing. Check console logs." net p),
            [uploadRequest file])) := by
  unfold uploadClick uploadClickAsync
  simp only [resumeAfterFetch_id]

/-! ## Lemmas on the string built-ins -/

theorem upperLookup_mem {n : Nat} {v : List Nat} :
    ∀ {t : List (Nat × List Nat)}, upperLookup n t = some v → (n, v) ∈ t
  | [], h => by simp [upperLookup] at h
  | (k, w) :: rest, h => by
    unfold upperLookup at h
    by_cases h1 : n = k
    · rw [if_pos h1] at h
      cases h
      subst h1
      exact List.mem_cons_self _ _
    · rw [if_neg h1] at h
      by_cases h2 : n < k
      · rw [if_pos h2] at h
        cases h
      · rw [if_neg h2] at h
        exact List.mem_cons_of_mem _ (upperLookup_mem h)

/-- No entry of the table has `'/'` or a whitespace character as source or in
its image, and no image is empty. -/
theorem unicodeUpperTable_ok :
    unicodeUpperTable.all (fun e =>
      Char.ofNat e.1 != '/' && !isJsWhitespace (Char.ofNat e.1) && !e.2.isEmpty &&
        e.2.all (fun m => Char.ofNat m != '/' && !isJsWhitespace (Char.ofNat m))) = true := by
  decide!

/-- The code points of the table are strictly increasing, as `upperLookup` expects. -/
theorem unicodeUpperTable_sorted :
    ((unicodeUpperTable.map Prod.fst).zip (unicodeUpperTable.map Prod.fst).tail).all
      (fun p => decide (p.1 < p.2)) = true := by
  decide!

/-- What the table says of a character that it changes. -/
theorem upperChar_of_lookup {c : Char} {v : List Nat}
    (h : upperLookup c.toNat unicodeUpperTable = some v) :
    upperChar c = v.map Char.ofNat ∧ c ≠ '/' ∧ isJsWhitespace c = false ∧ v ≠ [] ∧
      ∀ d ∈ v.map Char.ofNat, d ≠ '/' ∧ isJsWhitespace d = false := by
  have hmem := upperLookup_mem h
  have hok := List.all_eq_true.1 unicodeUpperTable_ok _ hmem
  simp only [Bool.and_eq_true, bne_iff_ne, ne_eq, Bool.not_eq_true', List.isEmpty_eq_false,
    List.all_eq_true, Char.ofNat_toNat] at hok
  obtain ⟨⟨⟨h1, h2⟩, h3⟩, h4⟩ := hok
  refine ⟨?_, h1, h2, ?_, ?_⟩
  · unfold upperChar
    rw [h]
  · intro hv
    subst hv
    simp at h3
  · intro d hd
    obtain ⟨m, hm, rfl⟩ := List.mem_map.1 hd
    exact h4 m hm

theorem upperChar_of_none {c : Char} (h : upperLookup c.toNat unicodeUpperTable = none) :
    upperChar c = [c] := by
  unfold upperChar
  rw [h]

theorem upperChar_slash : upperChar '/' = ['/'] := by decide

theorem upperChar_ne_nil (c : Char) : upperChar c ≠ [] := by
  cases h : upperLookup c.toNat unicodeUpperTable with
  | none => rw [upperChar_of_none h]; simp
  | some v =>
    obtain ⟨h1, _, _, h4, _⟩ := upperChar_of_lookup h
    rw [h1]
    simpa using h4

/-- The uppercase form of a character other than `'/'` holds no `'/'`. -/
theorem upperChar_no_slash {c : Char} (hc : c ≠ '/') : ∀ d ∈ upperChar c, d ≠ '/' := by
  cases h : upperLookup c.toNat unicodeUpperTable with
  | none =>
    rw [upperChar_of_none h]
    intro d hd
    rw [List.mem_singleton.1 hd]
    exact hc
  | some v =>
    obtain ⟨h1, _, _, _, h5⟩ := upperChar_of_lookup h
    rw [h1]
    intro d hd
    exact (h5 d hd).1

/-- Whitespace has no uppercase form of its own. -/
theorem upperChar_whitespace {c : Char} (hc : isJsWhitespace c = true) : upperChar c = [c] := by
  cases h : upperLookup c.toNat unicodeUpperTable with
  | none => exact upperChar_of_none h
  | some v =>
    obtain ⟨_, _, h3, _, _⟩ := upperChar_of_lookup h
    rw [hc] at h3
    cases h3

/-- The uppercase form of a non-whitespace character holds no whitespace. -/
theorem upperChar_no_whitespace {c : Char} (hc : isJsWhitespace c = false) :
    ∀ d ∈ upperChar c, isJsWhitespace d = false := by
  cases h : upperLookup c.toNat unicodeUpperTable with
  | none =>
    rw [upperChar_of_none h]
    intro d hd
    rw [List.mem_singleton.1 hd]
    exact hc
  | some v =>
    obtain ⟨h1, _, _, _, h5⟩ := upperChar_of_lookup h
    rw [h1]
    intro d hd
    exact (h5 d hd).2

theorem ne_slash_of_whitespace {c : Char} (h : isJsWhitespace c = true) : c ≠ '/' := by
  intro hc
  subst hc
  exact absurd h (by decide)

theorem splitSlashChars_ne_nil (l : List Char) : splitSlashChars l ≠ [] := by
  cases l with
  | nil => simp [splitSlashChars]
  | cons c cs =>
    unfold splitSlashChars
    split_ifs
    · simp
    · split <;> simp

theorem splitSlashChars_cons_ne {c : Char} (hc : c ≠ '/') (cs : List Char) :
    ∃ p ps, splitSlashChars cs = p :: ps ∧ splitSlashChars (c :: cs) = (c :: p) :: ps := by
  cases h : splitSlashChars cs with
  | nil => exact absurd h (splitSlashChars_ne_nil cs)
  | cons p ps =>
    refine ⟨p, ps, rfl, ?_⟩
    rw [splitSlashChars, if_neg hc, h]

theorem splitSlashChars_cons_slash (cs : List Char) :
    splitSlashChars ('/' :: cs) = [] :: splitSlashChars cs := by
  rw [splitSlashChars, if_pos rfl]

theorem splitSlashChars_append_no_slash (u : List Char) (hu : ∀ d ∈ u, d ≠ '/')
    (m : List Char) :
    ∃ p ps, splitSlashChars m = p :: ps ∧ splitSlashChars (u ++ m) = (u ++ p) :: ps := by
  induction u with
  | nil =>
    cases h : splitSlashChars m with
    | nil => exact absurd h (splitSlashChars_ne_nil m)
    | cons p ps => exact ⟨p, ps, rfl, by simpa using h⟩
  | cons d u ih =>
    obtain ⟨p, ps, h1, h2⟩ := ih (fun e he => hu e (List.mem_cons_of_mem _ he))
    obtain ⟨q, qs, h3, h4⟩ :=
      splitSlashChars_cons_ne (hu d (List.mem_cons_self _ _)) (u ++ m)
    rw [h2] at h3
    cases h3
    exact ⟨p, ps, h1, by simpa using h4⟩

theorem splitSlashChars_flatMap_upper (l : List Char) :
    splitSlashChars (l.flatMap upperChar) =
      (splitSlashChars l).map (fun p => p.flatMap upperChar) := by
  induction l with
  | nil => rfl
  | cons c cs ih =>
    by_cases hc : c = '/'
    · subst hc
      rw [List.flatMap_cons, upperChar_slash, List.singleton_append, splitSlashChars_cons_slash,
        splitSlashChars_cons_slash, ih]
      rfl
    · obtain ⟨p, ps, h1, h2⟩ := splitSlashChars_cons_ne hc cs
      obtain ⟨q, qs, h3, h4⟩ :=
        splitSlashChars_append_no_slash (upperChar c) (upperChar_no_slash hc)
          (cs.flatMap upperChar)
      rw [List.flatMap_cons, h4, h2]
      rw [h3, h1] at ih
      simp only [List.map_cons, List.cons.injEq] at ih
      simp only [List.map_cons, List.flatMap_cons, ih.1, ih.2]

theorem trimStartChars_append_of_head {u : List Char} (hne : u ≠ [])
    (hu : ∀ d ∈ u, isJsWhitespace d = false) (m : List Char) :
    trimStartChars (u ++ m) = u ++ m := by
  cases u with
  | nil => exact absurd rfl hne
  | cons d u =>
    have hd : isJsWhitespace d = false := hu d (List.mem_cons_self _ _)
    simp [trimStartChars, hd]

theorem trimStartChars_flatMap_upper (l : List Char) :
    trimStartChars (l.flatMap upperChar) = (trimStartChars l).flatMap upperChar := by
  induction l with
  | nil => rfl
  | cons c cs ih =>
    by_cases hw : isJsWhitespace c = true
    · rw [List.flatMap_cons, upperChar_whitespace hw, List.singleton_append, trimStartChars,
        trimStartChars, if_pos hw, if_pos hw, ih]
    · have hw' : isJsWhitespace c = false := by simpa using hw
      rw [List.flatMap_cons,
        trimStartChars_append_of_head (upperChar_ne_nil c) (upperChar_no_whitespace hw'),
        trimStartChars, if_neg hw, List.flatMap_cons]

theorem trimEndChars_cons (c : Char) (cs : List Char) :
    trimEndChars (c :: cs) =
      if trimEndChars cs = [] ∧ isJsWhitespace c = true then [] else c :: trimEndChars cs := by
  rw [trimEndChars]
  cases h : trimEndChars cs with
  | nil => by_cases hw : isJsWhitespace c = true <;> simp [hw]
  | cons r rs => simp

theorem trimEndChars_append_no_whitespace (u : List Char)
    (hu : ∀ d ∈ u, isJsWhitespace d = false) (m : List Char) :
    trimEndChars (u ++ m) = u ++ trimEndChars m := by
  induction u with
  | nil => rfl
  | cons d u ih =>
    have hd : isJsWhitespace d = false := hu d (List.mem_cons_self _ _)
    rw [List.cons_append, trimEndChars_cons, ih (fun e he => hu e (List.mem_cons_of_mem _ he)),
      if_neg (by simp [hd]), List.cons_append]

theorem flatMap_upper_eq_nil {l : List Char} : l.flatMap upperChar = [] ↔ l = [] := by
  cases l with
  | nil => simp
  | cons c cs =>
    simp only [List.flatMap_cons, List.append_eq_nil, reduceCtorEq, iff_false, not_and]
    intro h
    exact absurd h (upperChar_ne_nil c)

theorem trimEndChars_flatMap_upper (l : List Char) :
    trimEndChars (l.flatMap upperChar) = (trimEndChars l).flatMap upperChar := by
  induction l with
  | nil => rfl
  | cons c cs ih =>
    by_cases hw : isJsWhitespace c = true
    · rw [List.flatMap_cons, upperChar_whitespace hw, List.singleton_append, trimEndChars_cons,
        trimEndChars_cons, ih]
      by_cases h : trimEndChars cs = []
      · rw [if_pos ⟨flatMap_upper_eq_nil.2 h, hw⟩, if_pos ⟨h, hw⟩]
        rfl
      · rw [if_neg (fun hh => h (flatMap_upper_eq_nil.1 hh.1)), if_neg (fun hh => h hh.1),
          List.flatMap_cons, upperChar_whitespace hw, List.singleton_append]
    · have hw' : isJsWhitespace c = false := by simpa using hw
      rw [List.flatMap_cons,
        trimEndChars_append_no_whitespace _ (upperChar_no_whitespace hw'), ih,
        trimEndChars_cons, if_neg (fun hh => hw hh.2), List.flatMap_cons]

theorem trimChars_flatMap_upper (l : List Char) :
    trimChars (l.flatMap upperChar) = (trimChars l).flatMap upperChar := by
  unfold trimChars
  rw [trimEndChars_flatMap_upper, trimStartChars_flatMap_upper]

theorem trimChars_cons_whitespace {c : Char} (hc : isJsWhitespace c = true) (p : List Char) :
    trimChars (c :: p) = trimChars p := by
  unfold trimChars
  rw [trimEndChars_cons]
  by_cases h : trimEndChars p = [] ∧ isJsWhitespace c = true
  · rw [if_pos h, h.1]
  · rw [if_neg h, trimStartChars, if_pos hc]

/-- Trimming the start of the whole string first does not change the trimmed parts. -/
theorem split_trimStart (l : List Char) :
    (splitSlashChars (trimStartChars l)).map trimChars = (splitSlashChars l).map trimChars := by
  induction l with
  | nil => rfl
  | cons c cs ih =>
    rw [trimStartChars]
    by_cases hw : isJsWhitespace c = true
    · rw [if_pos hw, ih]
      obtain ⟨p, ps, h1, h2⟩ := splitSlashChars_cons_ne (ne_slash_of_whitespace hw) cs
      rw [h1, h2, List.map_cons, List.map_cons, trimChars_cons_whitespace hw]
    · rw [if_neg hw]

/-- Trimming the end of the whole string first does not change the end-trimmed parts. -/
theorem split_trimEnd (l : List Char) :
    (splitSlashChars (trimEndChars l)).map trimEndChars =
      (splitSlashChars l).map trimEndChars := by
  induction l with
  | nil => rfl
  | cons c cs ih =>
    rw [trimEndChars_cons]
    by_cases h : trimEndChars cs = [] ∧ isJsWhitespace c = true
    · rw [if_pos h]
      obtain ⟨p, ps, h1, h2⟩ := splitSlashChars_cons_ne (ne_slash_of_whitespace h.2) cs
      rw [h.1, h1] at ih
      simp only [splitSlashChars, List.map_cons, List.map_nil, trimEndChars] at ih
      have hps : ps = [] := by
        cases ps with
        | nil => rfl
        | cons q qs => simp at ih
      subst hps
      have hp : trimEndChars p = [] := by
        simp only [List.map_nil, List.cons.injEq, and_true] at ih
        exact ih.symm
      rw [h2]
      have hcp : trimEndChars (c :: p) = [] := by
        rw [trimEndChars_cons, if_pos ⟨hp, h.2⟩]
      simp only [splitSlashChars, List.map_cons, List.map_nil, hcp]
      rfl
    · rw [if_neg h]
      by_cases hc : c = '/'
      · subst hc
        rw [splitSlashChars_cons_slash, splitSlashChars_cons_slash, List.map_cons, List.map_cons,
          ih]
      · obtain ⟨p, ps, h1, h2⟩ := splitSlashChars_cons_ne hc cs
        obtain ⟨q, qs, h3, h4⟩ := splitSlashChars_cons_ne hc (trimEndChars cs)
        rw [h3, h1] at ih
        rw [h4, h2]
        simp only [List.map_cons, List.cons.injEq] at ih ⊢
        refine ⟨?_, ih.2⟩
        rw [trimEndChars_cons, trimEndChars_cons, ih.1]

/-- Trimming the whole string before splitting does not change the trimmed parts. -/
theorem split_trimChars (l : List Char) :
    (splitSlashChars (trimChars l)).map trimChars = (splitSlashChars l).map trimChars := by
  have h : trimChars = trimStartChars ∘ trimEndChars := rfl
  conv_lhs => rw [trimChars, split_trimStart]
  rw [h, ← List.map_map, ← List.map_map, split_trimEnd]

/-! ## Lemmas on the sort order -/

theorem char_toNat_valid (c : Char) :
    c.toNat < 0xD800 ∨ (0xDFFF < c.toNat ∧ c.toNat < 0x110000) := c.valid

theorem char_eq_of_toNat_eq {c d : Char} (h : c.toNat = d.toNat) : c = d := by
  rw [← Char.ofNat_toNat c, ← Char.ofNat_toNat d, h]

theorem utf16Units_append_inj {c d : Char} {x y : List Nat}
    (h : utf16Units c ++ x = utf16Units d ++ y) : c = d ∧ x = y := by
  have hc := char_toNat_valid c
  have hd := char_toNat_valid d
  unfold utf16Units at h
  by_cases h1 : c.toNat < 0x10000 <;> by_cases h2 : d.toNat < 0x10000 <;>
    simp only [h1, h2, if_true, if_false, List.cons_append, List.nil_append,
      List.cons.injEq] at h
  · exact ⟨char_eq_of_toNat_eq h.1, h.2⟩
  · omega
  · omega
  · exact ⟨char_eq_of_toNat_eq (by omega), h.2.2⟩

theorem utf16Units_ne_nil (c : Char) : utf16Units c ≠ [] := by
  unfold utf16Units
  by_cases h : c.toNat < 0x10000 <;> simp [h]

theorem flatMap_utf16Units_inj :
    ∀ a b : List Char, a.flatMap utf16Units = b.flatMap utf16Units → a = b
  | [], [] => fun _ => rfl
  | [], d :: ds => by
    intro h
    simp only [List.flatMap_nil, List.flatMap_cons] at h
    exact absurd (List.append_eq_nil.1 h.symm).1 (utf16Units_ne_nil d)
  | c :: cs, [] => by
    intro h
    simp only [List.flatMap_nil, List.flatMap_cons] at h
    exact absurd (List.append_eq_nil.1 h).1 (utf16Units_ne_nil c)
  | c :: cs, d :: ds => by
    intro h
    simp only [List.flatMap_cons] at h
    obtain ⟨h1, h2⟩ := utf16Units_append_inj h
    rw [h1, flatMap_utf16Units_inj cs ds h2]

theorem codeUnits_inj {a b : String} (h : codeUnits a = codeUnits b) : a = b :=
  String.ext (flatMap_utf16Units_inj _ _ h)

theorem unitsLe_total : ∀ a b : List Nat, unitsLe a b = true ∨ unitsLe b a = true
  | [], _ => Or.inl rfl
  | _ :: _, [] => Or.inr rfl
  | a :: as, b :: bs => by
    have ih := unitsLe_total as bs
    simp only [unitsLe, Bool.or_eq_true, decide_eq_true_eq, Bool.and_eq_true, beq_iff_eq]
    rcases Nat.lt_trichotomy a b with h | h | h
    · exact Or.inl (Or.inl h)
    · rcases ih with h' | h'
      · exact Or.inl (Or.inr ⟨h, h'⟩)
      · exact Or.inr (Or.inr ⟨h.symm, h'⟩)
    · exact Or.inr (Or.inl h)

theorem unitsLe_trans :
    ∀ a b c : List Nat, unitsLe a b = true → unitsLe b c = true → unitsLe a c = true
  | [], _, _ => fun _ _ => rfl
  | _ :: _, [], _ => fun h _ => by simp [unitsLe] at h
  | _ :: _, _ :: _, [] => fun _ h => by simp [unitsLe] at h
  | a :: as, b :: bs, c :: cs => by
    have ih := unitsLe_trans as bs cs
    simp only [unitsLe, Bool.or_eq_true, decide_eq_true_eq, Bool.and_eq_true, beq_iff_eq]
    rintro (h1 | ⟨h1, h1'⟩) (h2 | ⟨h2, h2'⟩)
    · exact Or.inl (by omega)
    · exact Or.inl (by omega)
    · exact Or.inl (by omega)
    · exact Or.inr ⟨by omega, ih h1' h2'⟩

theorem unitsLe_antisymm :
    ∀ a b : List Nat, unitsLe a b = true → unitsLe b a = true → a = b
  | [], [] => fun _ _ => rfl
  | [], _ :: _ => fun _ h => by simp [unitsLe] at h
  | _ :: _, [] => fun h _ => by simp [unitsLe] at h
  | a :: as, b :: bs => by
    have ih := unitsLe_antisymm as bs
    simp only [unitsLe, Bool.or_eq_true, decide_eq_true_eq, Bool.and_eq_true, beq_iff_eq]
    rintro (h1 | ⟨h1, h1'⟩) (h2 | ⟨h2, h2'⟩)
    · omega
    · omega
    · omega
    · rw [h1, ih h1' h2']

instance jsStrLe_isTotal : IsTotal String (fun a b => jsStrLe a b = true) :=
  ⟨fun a b => unitsLe_total (codeUnits a) (codeUnits b)⟩

instance jsStrLe_isTrans : IsTrans String (fun a b => jsStrLe a b = true) :=
  ⟨fun a b c => unitsLe_trans (codeUnits a) (codeUnits b) (codeUnits c)⟩

instance jsStrLe_isAntisymm : IsAntisymm String (fun a b => jsStrLe a b = true) :=
  ⟨fun a b h1 h2 => codeUnits_inj (unitsLe_antisymm (codeUnits a) (codeUnits b) h1 h2)⟩

theorem sortInsert_eq_orderedInsert (a : String) (l : List String) :
    sortInsert a l = List.orderedInsert (fun a b => jsStrLe a b = true) a l := by
  induction l with
  | nil => rfl
  | cons b bs ih => simp only [sortInsert, List.orderedInsert, ih]

theorem jsSort_eq_insertionSort (l : List String) :
    jsSort l = List.insertionSort (fun a b => jsStrLe a b = true) l := by
  induction l with
  | nil => rfl
  | cons a as ih => simp only [jsSort, List.insertionSort, ih, sortInsert_eq_orderedInsert]

/-- The result of `sort()` is ordered. -/
theorem jsSort_sorted (l : List String) :
    List.Sorted (fun a b => jsStrLe a b = true) (jsSort l) := by
  rw [jsSort_eq_insertionSort]
  exact List.sorted_insertionSort _ l

/-- The result of `sort()` holds the same elements. -/
theorem jsSort_perm (l : List String) : (jsSort l).Perm l := by
  rw [jsSort_eq_insertionSort]
  exact List.perm_insertionSort _ l

/-- The result of `sort()` depends on the elements only, not on their order. -/
theorem jsSort_eq_of_perm {l₁ l₂ : List String} (h : l₁.Perm l₂) : jsSort l₁ = jsSort l₂ :=
  List.eq_of_perm_of_sorted ((jsSort_perm l₁).trans (h.trans (jsSort_perm l₂).symm))
    (jsSort_sorted l₁) (jsSort_sorted l₂)

/-! ## Lemmas on the canonical key -/

theorem jsTrim_empty : jsTrim "" = "" := rfl

theorem rawReasonCodeOf_some (s : String) :
    rawReasonCodeOf (some s) = jsTrim (toUpperCase s) := by
  unfold rawReasonCodeOf
  by_cases h : s = ""
  · subst h
    rfl
  · simp only [h, if_false]

/-- The trimmed parts of `rawReasonCode` are the parts of the field itself,
each uppercased and trimmed. -/
theorem split_rawReasonCodeOf (s : String) :
    (jsSplitSlash (rawReasonCodeOf (some s))).map jsTrim =
      (jsSplitSlash s).map (fun p => jsTrim (toUpperCase p)) := by
  rw [rawReasonCodeOf_some]
  simp only [jsSplitSlash, jsTrim, toUpperCase, List.map_map]
  have h := split_trimChars (s.data.flatMap upperChar)
  rw [splitSlashChars_flatMap_upper, List.map_map] at h
  have h' := congrArg (List.map String.mk) h
  simp only [List.map_map] at h'
  exact h'

theorem reasonCodesArrayOf_some (s : String) :
    reasonCodesArrayOf (some s) =
      ((jsSplitSlash s).map (fun p => jsTrim (toUpperCase p))).filter (fun p => p ≠ "") := by
  unfold reasonCodesArrayOf
  rw [split_rawReasonCodeOf]

/-- The canonical key is a function of the multiset of codes. -/
theorem sortedKey_eq_of_perm {a b : Option String}
    (h : (reasonCodesArrayOf a).Perm (reasonCodesArrayOf b)) :
    sortedReasonCodeStringOf a = sortedReasonCodeStringOf b := by
  unfold sortedReasonCodeStringOf
  rw [jsSort_eq_of_perm h]

/-! ## Lemmas on the rendered text -/

theorem data_get?_append_left (a b : String) (i : Nat) (h : i < a.data.length) :
    (a ++ b).data.get? i = a.data.get? i := by
  rw [String.data_append, List.get?_eq_getElem?, List.get?_eq_getElem?,
    List.getElem?_append_left h]

theorem summaryText_rest_inj {name cas r₁ r₂ : String}
    (h : summaryText name cas r₁ = summaryText name cas r₂) : r₁ = r₂ := by
  unfold summaryText at h
  have h' := congrArg String.data h
  simp only [String.data_append] at h'
  exact String.ext (List.append_cancel_left h')

/-- The character of a detail paragraph at offset `8 + i` is the `i`-th
character of its label. -/
theorem createDetailElement_get? (label value : String) (i : Nat) (h : i < label.data.length) :
    (createDetailElement label value).data.get? (8 + i) = label.data.get? i := by
  unfold createDetailElement
  simp only [String.data_append, List.append_assoc]
  have h8 : "<strong>".data.length = 8 := rfl
  rw [List.get?_eq_getElem?, List.get?_eq_getElem?,
    List.getElem?_append_right (by rw [h8]; omega), h8, Nat.add_sub_cancel_left,
    List.getElem?_append_left h]

/-- Paragraphs whose labels differ at some position are different. -/
theorem createDetailElement_ne {l₁ l₂ : String} (v₁ v₂ : String) (i : Nat)
    (h₁ : i < l₁.data.length) (h₂ : i < l₂.data.length)
    (hne : l₁.data.get? i ≠ l₂.data.get? i) :
    createDetailElement l₁ v₁ ≠ createDetailElement l₂ v₂ := by
  intro h
  apply hne
  rw [← createDetailElement_get? l₁ v₁ i h₁, ← createDetailElement_get? l₂ v₂ i h₂, h]

theorem filteredDisplayOrder_eq (b : Bool) : filteredDisplayOrder b = displayOrderForDetails := by
  cases b <;> decide

/-- The seven field paragraphs hold no `Classification` and no `Reason Code`
paragraph. -/
theorem field_lines_no_classification (r : SubstanceRecord) (v : String) :
    createDetailElement "Classification" v ∉
        displayOrderForDetails.map (fun item => createDetailElement item.2 (detailValue r item.1)) ∧
      createDetailElement "Reason Code" v ∉
        displayOrderForDetails.map (fun item => createDetailElement item.2 (detailValue r item.1)) := by
  simp only [displayOrderForDetails, List.map_cons, List.map_nil, List.mem_cons,
    List.mem_singleton, List.not_mem_nil, or_false, not_or]
  refine ⟨⟨?_, ?_, ?_, ?_, ?_, ?_, ?_⟩, ⟨?_, ?_, ?_, ?_, ?_, ?_, ?_⟩⟩
  · exact createDetailElement_ne _ _ 0 (by decide) (by decide) (by decide)
  · exact createDetailElement_ne _ _ 1 (by decide) (by decide) (by decide)
  · exact createDetailElement_ne _ _ 0 (by decide) (by decide) (by decide)
  · exact createDetailElement_ne _ _ 0 (by decide) (by decide) (by decide)
  · exact createDetailElement_ne _ _ 0 (by decide) (by decide) (by decide)
  · exact createDetailElement_ne _ _ 0 (by decide) (by decide) (by decide)
  · exact createDetailElement_ne _ _ 0 (by decide) (by decide) (by decide)
  · exact createDetailElement_ne _ _ 0 (by decide) (by decide) (by decide)
  · exact createDetailElement_ne _ _ 0 (by decide) (by decide) (by decide)
  · exact createDetailElement_ne _ _ 0 (by decide) (by decide) (by decide)
  · exact createDetailElement_ne _ _ 2 (by decide) (by decide) (by decide)
  · exact createDetailElement_ne _ _ 0 (by decide) (by decide) (by decide)
  · exact createDetailElement_ne _ _ 0 (by decide) (by decide) (by decide)
  · exact createDetailElement_ne _ _ 0 (by decide) (by decide) (by decide)

theorem detailElements_of_custom {r : SubstanceRecord} (h : isCustomSummaryGenerated r = true) :
    detailElements r =
      displayOrderForDetails.map (fun item => createDetailElement item.2 (detailValue r item.1)) := by
  unfold detailElements
  rw [h, filteredDisplayOrder_eq]
  rfl

theorem detailElements_of_fallback {r : SubstanceRecord}
    (h : isCustomSummaryGenerated r = false) :
    detailElements r =
      [createDetailElement "Classification" (orElse (some (classificationOf r)) "N/A"),
       createDetailElement "Reason Code" (orElse (some (rawReasonCode r)) "N/A")] ++
      displayOrderForDetails.map (fun item => createDetailElement item.2 (detailValue r item.1)) := by
  unfold detailElements
  rw [h, filteredDisplayOrder_eq]
  rfl

/-- The flag `isCustomSummaryGenerated` is set exactly for the four handled
classifications. -/
theorem isCustomSummaryGenerated_iff (r : SubstanceRecord) :
    isCustomSummaryGenerated r = true ↔
      classificationOf r = "D/P" ∨ classificationOf r = "P" ∨ classificationOf r = "D" ∨
        classificationOf r = "FI" := by
  unfold isCustomSummaryGenerated classificationSummary
  by_cases h1 : classificationOf r = "D/P"
  · simp [h1]
  by_cases h2 : classificationOf r = "P"
  · simp [h2]
  by_cases h3 : classificationOf r = "D"
  · simp [h3]
  by_cases h4 : classificationOf r = "FI"
  · simp [h4]
  simp [h1, h2, h3, h4]

theorem restDP_get? (key : String) : (restDP key).data.get? 1 = some 'e' := by
  unfold restDP
  split_ifs <;> rfl

theorem restP_get? (key : String) : (restP key).data.get? 1 = some 'r' := by
  unfold restP
  split_ifs <;> rfl

theorem restD_get? (key : String) : (restD key).data.get? 1 = some 'e' := by
  unfold restD
  split_ifs <;> rfl

theorem restFallback_get? (cls raw : String) (h : 1 < cls.data.length) :
    (restFallback cls raw).data.get? 1 = cls.data.get? 1 := by
  have hne : cls ≠ "" := by
    intro h'
    subst h'
    exact absurd h (by decide)
  unfold restFallback orElse
  simp only [hne, if_false]
  rw [String.append_assoc, String.append_assoc, data_get?_append_left _ _ 1 h]

theorem restFallback_get?_one (c : Char) (raw : String) :
    (restFallback ⟨[c]⟩ raw).data.get? 1 = some '.' := by
  have hne : (⟨[c]⟩ : String) ≠ "" := by
    intro h'
    exact absurd (congrArg String.data h') (by simp)
  unfold restFallback orElse
  simp only [hne, if_false]
  rw [String.append_assoc, data_get?_append_left _ _ 1 (by simp [String.data_append])]
  rfl

/-- A custom summary is never the fallback text of the same record. -/
theorem custom_ne_fallback {r : SubstanceRecord} (h : isCustomSummaryGenerated r = true) :
    classificationSummaryContent r ≠ fallbackSummary r := by
  have hPDP : ("P" = "D/P") = False := by decide
  have hDDP : ("D" = "D/P") = False := by decide
  have hDP : ("D" = "P") = False := by decide
  have hFIDP : ("FI" = "D/P") = False := by decide
  have hFIP : ("FI" = "P") = False := by decide
  have hFID : ("FI" = "D") = False := by decide
  intro heq
  unfold classificationSummaryContent classificationSummary fallbackSummary at heq
  rcases (isCustomSummaryGenerated_iff r).1 h with hc | hc | hc | hc
  · simp only [hc, if_true] at heq
    have h1 := congrArg (fun t : String => t.data.get? 1) (summaryText_rest_inj heq)
    dsimp only at h1
    rw [restDP_get?, restFallback_get? _ _ (by decide)] at h1
    exact absurd h1 (by decide)
  · simp only [hc, hPDP, if_true, if_false] at heq
    have h1 := congrArg (fun t : String => t.data.get? 1) (summaryText_rest_inj heq)
    dsimp only at h1
    rw [restP_get?, restFallback_get?_one 'P'] at h1
    exact absurd h1 (by decide)
  · simp only [hc, hDDP, hDP, if_true, if_false] at heq
    have h1 := congrArg (fun t : String => t.data.get? 1) (summaryText_rest_inj heq)
    dsimp only at h1
    rw [restD_get?, restFallback_get?_one 'D'] at h1
    exact absurd h1 (by decide)
  · simp only [hc, hFIDP, hFIP, hFID, if_true, if_false] at heq
    have h1 := congrArg (fun t : String => t.data.get? 1) (summaryText_rest_inj heq)
    dsimp only at h1
    rw [restFallback_get? _ _ (by decide)] at h1
    exact absurd h1 (by decide)

theorem content_of_fallback {r : SubstanceRecord} (h : isCustomSummaryGenerated r = false) :
    classificationSummaryContent r = fallbackSummary r := by
  have h' : ¬ isCustomSummaryGenerated r = true := by simp [h]
  rw [isCustomSummaryGenerated_iff] at h'
  simp only [not_or] at h'
  unfold classificationSummaryContent classificationSummary
  simp only [h'.1, h'.2.1, h'.2.2.1, h'.2.2.2, if_false]

theorem createDetailElement_value_inj {label v₁ v₂ : String}
    (h : createDetailElement label v₁ = createDetailElement label v₂) : v₁ = v₂ := by
  unfold createDetailElement at h
  have h' := congrArg String.data h
  simp only [String.data_append] at h'
  exact String.ext (List.append_cancel_left h')

/-- The value shown on the `Reporting Threshold` line. -/
theorem detailValue_reporting_threshold (r : SubstanceRecord) :
    detailValue r "reporting_threshold" =
      (match r.reporting_threshold with
        | none => "0.1%"
        | some v => if v = "N/A" ∨ jsTrim v = "" then "0.1%" else v) := by
  have hget : r.get "reporting_threshold" = r.reporting_threshold := by
    unfold SubstanceRecord.get
    simp only [show ("reporting_threshold" = "substance_name") = False from by decide,
      show ("reporting_threshold" = "cas_rn") = False from by decide,
      show ("reporting_threshold" = "classification") = False from by decide,
      show ("reporting_threshold" = "reason_code") = False from by decide,
      show ("reporting_threshold" = "source") = False from by decide, if_false, if_true]
  unfold detailValue
  rw [hget]
  cases r.reporting_threshold with
  | none => simp [nullish]
  | some v => simp [nullish]

/-- Values shown on the six other field lines: the field, or `"N/A"` when absent. -/
theorem detailValue_other (r : SubstanceRecord) :
    detailValue r "substance_name" = nullish r.substance_name "N/A" ∧
    detailValue r "cas_rn" = nullish r.cas_rn "N/A" ∧
    detailValue r "source" = nullish r.source "N/A" ∧
    detailValue r "first_added" = nullish r.first_added "N/A" ∧
    detailValue r "last_revised" = nullish r.last_revised "N/A" ∧
    detailValue r "generic_examples" = nullish r.generic_examples "N/A" := by
  refine ⟨?_, ?_, ?_, ?_, ?_, ?_⟩ <;>
    · unfold detailValue SubstanceRecord.get
      simp only [show ("substance_name" = "reporting_threshold") = False from by decide,
        show ("cas_rn" = "reporting_threshold") = False from by decide,
        show ("source" = "reporting_threshold") = False from by decide,
        show ("first_added" = "reporting_threshold") = False from by decide,
        show ("last_revised" = "reporting_threshold") = False from by decide,
        show ("generic_examples" = "reporting_threshold") = False from by decide,
        false_and, if_false]
      rfl

/-- The detail paragraphs of a record, listed. -/
theorem detail_lines_aux (r : SubstanceRecord) :
    detailElements r =
        (if classificationOf r ∈ ["D/P", "P", "D", "FI"] then []
         else
          [createDetailElement "Classification"
            (if classificationOf r = "" then "N/A" else classificationOf r),
           createDetailElement "Reason Code"
            (if rawReasonCode r = "" then "N/A" else rawReasonCode r)]) ++
        [createDetailElement "Substance Name" (r.substance_name.getD "N/A"),
         createDetailElement "CAS RN" (r.cas_rn.getD "N/A"),
         createDetailElement "Source" (r.source.getD "N/A"),
         createDetailElement "Reporting Threshold"
          (match r.reporting_threshold with
            | none => "0.1%"
            | some v => if v = "N/A" ∨ jsTrim v = "" then "0.1%" else v),
         createDetailElement "First Added" (r.first_added.getD "N/A"),
         createDetailElement "Last Revised" (r.last_revised.getD "N/A"),
         createDetailElement "Generic Examples" (r.generic_examples.getD "N/A")] := by
  have hnull : ∀ v : Option String, nullish v "N/A" = v.getD "N/A" := by
    intro v
    cases v <;> rfl
  have hmem : classificationOf r ∈ ["D/P", "P", "D", "FI"] ↔ isCustomSummaryGenerated r = true := by
    rw [isCustomSummaryGenerated_iff]
    simp only [List.mem_cons, List.mem_singleton, List.not_mem_nil, or_false]
  have hfields :
      displayOrderForDetails.map (fun item => createDetailElement item.2 (detailValue r item.1)) =
        [createDetailElement "Substance Name" (r.substance_name.getD "N/A"),
         createDetailElement "CAS RN" (r.cas_rn.getD "N/A"),
         createDetailElement "Source" (r.source.getD "N/A"),
         createDetailElement "Reporting Threshold"
          (match r.reporting_threshold with
            | none => "0.1%"
            | some v => if v = "N/A" ∨ jsTrim v = "" then "0.1%" else v),
         createDetailElement "First Added" (r.first_added.getD "N/A"),
         createDetailElement "Last Revised" (r.last_revised.getD "N/A"),
         createDetailElement "Generic Examples" (r.generic_examples.getD "N/A")] := by
    obtain ⟨h1, h2, h3, h4, h5, h6⟩ := detailValue_other r
    simp only [displayOrderForDetails, List.map_cons, List.map_nil, h1, h2, h3, h4, h5, h6,
      detailValue_reporting_threshold, hnull]
  by_cases hc : isCustomSummaryGenerated r = true
  · rw [if_pos (hmem.2 hc), detailElements_of_custom hc, hfields]
    rfl
  · have hc' : isCustomSummaryGenerated r = false := by simpa using hc
    rw [if_neg (fun h => hc (hmem.1 h)), detailElements_of_fallback hc', hfields]
    rfl

theorem classificationOf_some {r : SubstanceRecord} {c : String}
    (h : r.classification = some c) : classificationOf r = jsTrim c := by
  unfold classificationOf
  rw [h]
  by_cases hc : c = ""
  · subst hc
    rfl
  · simp only [hc, if_false]

/-- A `reason_code` whose non-empty parts, uppercased and trimmed, are `FA`,
`FI` and `LR` in some order has the canonical key `FA&FI&LR`. -/
theorem sortedKey_of_three_codes {rc : String}
    (h : (((jsSplitSlash rc).map (fun p => jsTrim (toUpperCase p))).filter
      (fun p => p ≠ "")).Perm ["FA", "FI", "LR"]) :
    sortedReasonCodeStringOf (some rc) = "FA&FI&LR" := by
  unfold sortedReasonCodeStringOf
  rw [reasonCodesArrayOf_some, jsSort_eq_of_perm h]
  decide

/-! ## Claims -/

/-- C1: two `reason_code` strings whose `'/'`-separated parts agree after
uppercasing (full Unicode) and trimming each part, up to the order of the
parts (so strings that differ only in letter case, in the order of the parts or
in whitespace around the parts), have the same canonical key; `"fa/LR "`,
`"LR/FA"` and `"lr /fa"` all give `"FA&LR"`. -/
theorem canonical_key_invariant :
    (∀ s t : String,
      ((jsSplitSlash s).map (fun p => jsTrim (toUpperCase p))).Perm
        ((jsSplitSlash t).map (fun p => jsTrim (toUpperCase p))) →
      sortedReasonCodeStringOf (some s) = sortedReasonCodeStringOf (some t)) ∧
    sortedReasonCodeStringOf (some "fa/LR ") = "FA&LR" ∧
    sortedReasonCodeStringOf (some "LR/FA") = "FA&LR" ∧
    sortedReasonCodeStringOf (some "lr /fa") = "FA&LR" := by
  refine ⟨?_, by decide, by decide, by decide⟩
  intro s t h
  apply sortedKey_eq_of_perm
  rw [reasonCodesArrayOf_some, reasonCodesArrayOf_some]
  exact h.filter _

/-- Witness of C1 at `"ﬁ / é/straße"` and `"STRASSE/É/FI "`, which differ in
letter case (outside ASCII too), order and spacing: both have the key
`"FI&STRASSE&É"`. -/
theorem canonical_key_invariant_witness :
    ((jsSplitSlash "ﬁ / é/straße").map (fun p => jsTrim (toUpperCase p))).Perm
        ((jsSplitSlash "STRASSE/É/FI ").map (fun p => jsTrim (toUpperCase p))) ∧
      sortedReasonCodeStringOf (some "ﬁ / é/straße") =
        sortedReasonCodeStringOf (some "STRASSE/É/FI ") ∧
      sortedReasonCodeStringOf (some "STRASSE/É/FI ") = "FI&STRASSE&É" :=
  have h : ((jsSplitSlash "ﬁ / é/straße").map (fun p => jsTrim (toUpperCase p))).Perm
      ((jsSplitSlash "STRASSE/É/FI ").map (fun p => jsTrim (toUpperCase p))) := by decide!
  ⟨h, canonical_key_invariant.1 "ﬁ / é/straße" "STRASSE/É/FI " h, by decide!⟩

/-- C2, as stated, fails: `"FA/FA/LR"` and `"FA/LR"` denote the same set of
codes, yet their canonical keys are `"FA&FA&LR"` and `"FA&LR"`, and a `D/P`
record gets the default `D/P` summary for the first and the `FA&LR` summary for
the second. -/
theorem duplicate_codes_change_key :
    (∀ c : String,
      c ∈ reasonCodesArrayOf (some "FA/FA/LR") ↔ c ∈ reasonCodesArrayOf (some "FA/LR")) ∧
    sortedReasonCodeStringOf (some "FA/FA/LR") = "FA&FA&LR" ∧
    sortedReasonCodeStringOf (some "FA/LR") = "FA&LR" ∧
    sortedReasonCodeStringOf (some "FA/FA/LR") ≠ sortedReasonCodeStringOf (some "FA/LR") ∧
    classificationSummaryContent
        { substance_name := some "Lead", cas_rn := some "7439-92-1",
          classification := some "D/P", reason_code := some "FA/FA/LR" } ≠
      classificationSummaryContent
        { substance_name := some "Lead", cas_rn := some "7439-92-1",
          classification := some "D/P", reason_code := some "FA/LR" } := by
  refine ⟨?_, by decide, by decide, by decide, ?_⟩
  · intro c
    have h1 : reasonCodesArrayOf (some "FA/FA/LR") = ["FA", "FA", "LR"] := by decide
    have h2 : reasonCodesArrayOf (some "FA/LR") = ["FA", "LR"] := by decide
    rw [h1, h2]
    simp
  · have h1 : classificationSummaryContent
        { substance_name := some "Lead", cas_rn := some "7439-92-1",
          classification := some "D/P", reason_code := some "FA/FA/LR" } =
        summaryText "Lead" "7439-92-1" (restDP "FA&FA&LR") := by rfl
    have h2 : classificationSummaryContent
        { substance_name := some "Lead", cas_rn := some "7439-92-1",
          classification := some "D/P", reason_code := some "FA/LR" } =
        summaryText "Lead" "7439-92-1" (restDP "FA&LR") := by rfl
    rw [h1, h2]
    decide

/-- C2, amended: two records whose code lists (uppercased, trimmed, non-empty
parts of `reason_code`) hold the same codes with the same multiplicities, in
any order, have the same canonical key; if they also agree on `substance_name`,
`cas_rn` and the trimmed classification, both get a custom summary or both get
the fallback, and a custom summary is the same text for both. -/
theorem same_codes_same_key (r₁ r₂ : SubstanceRecord)
    (h : (reasonCodesArray r₁).Perm (reasonCodesArray r₂)) :
    sortedReasonCodeString r₁ = sortedReasonCodeString r₂ ∧
    (r₁.substance_name = r₂.substance_name → r₁.cas_rn = r₂.cas_rn →
      classificationOf r₁ = classificationOf r₂ →
      isCustomSummaryGenerated r₁ = isCustomSummaryGenerated r₂ ∧
      (isCustomSummaryGenerated r₁ = true →
        classificationSummaryContent r₁ = classificationSummaryContent r₂)) := by
  have hk : sortedReasonCodeString r₁ = sortedReasonCodeString r₂ := sortedKey_eq_of_perm h
  refine ⟨hk, ?_⟩
  intro hn hc hcl
  unfold isCustomSummaryGenerated classificationSummaryContent classificationSummary
  simp only [hn, hc, hcl, hk]
  constructor
  · split_ifs <;> rfl
  · split_ifs <;> simp

/-- Witness of the amended C2 at `"FA/LR/FA"` and `"lr/fa/fa"`. -/
theorem same_codes_same_key_witness :
    (reasonCodesArray { classification := some "D", reason_code := some "FA/LR/FA" }).Perm
      (reasonCodesArray { classification := some "D", reason_code := some "lr/fa/fa" }) ∧
    sortedReasonCodeString { classification := some "D", reason_code := some "FA/LR/FA" } =
      sortedReasonCodeString { classification := some "D", reason_code := some "lr/fa/fa" } :=
  have h : (reasonCodesArray { classification := some "D", reason_code := some "FA/LR/FA" }).Perm
      (reasonCodesArray { classification := some "D", reason_code := some "lr/fa/fa" }) := by
    decide
  ⟨h, (same_codes_same_key _ _ h).1⟩

/-- C3: a record whose classification trims to `"D/P"` and whose
`reason_code` canonicalises to `"FA&FI&LR"` (its key is that string; in
particular when its non-empty parts, uppercased and trimmed, are `FA`, `FI` and
`LR` in any order) gets, after the Summary heading, the mixed-classification
text with its `substance_name` and `cas_rn`, each replaced by `"N/A"` when
absent or empty. -/
theorem dp_all_codes_summary (r : SubstanceRecord) (c : String)
    (hcls : r.classification = some c) (hc : jsTrim c = "D/P")
    (hk : sortedReasonCodeString r = "FA&FI&LR" ∨
      ∃ rc : String, r.reason_code = some rc ∧
        (((jsSplitSlash rc).map (fun p => jsTrim (toUpperCase p))).filter
          (fun p => p ≠ "")).Perm ["FA", "FI", "LR"]) :
    classificationSummaryContent r =
      "<strong>Summary:</strong><br>" ++
        (match r.substance_name with
          | none => "N/A"
          | some n => if n = "" then "N/A" else n) ++
        " (CAS RN: " ++
        (match r.cas_rn with
          | none => "N/A"
          | some n => if n = "" then "N/A" else n) ++
        ") is classified as Declarable/Prohibited (D/P). The substance has mixed classification, meaning it can be declared or prohibited depending on the application. It is tracked for information, legally regulated, and under assessment. Must be declared if present above 0.1%." := by
  have hcl : classificationOf r = "D/P" := by rw [classificationOf_some hcls, hc]
  have hkey : sortedReasonCodeString r = "FA&FI&LR" := by
    rcases hk with hk | ⟨rc, hrc, hperm⟩
    · exact hk
    · unfold sortedReasonCodeString
      rw [hrc]
      exact sortedKey_of_three_codes hperm
  unfold classificationSummaryContent classificationSummary
  simp only [hcl, hkey, if_true, summaryText, restDP, orElse]
  simp only [String.append_assoc]
  rfl

/-- Witness of C3 at classification `" D/P "` with the reason codes
`" lr / fi //FA "` (mixed case, another order, spaces around the parts, an
empty part) and `"ﬁ/LR/fa"` (the ligature U+FB01, whose uppercase form is `FI`). -/
theorem dp_all_codes_summary_witness :
    classificationSummaryContent
        { substance_name := some "Lead", classification := some " D/P ",
          reason_code := some " lr / fi //FA " } =
      "<strong>Summary:</strong><br>Lead (CAS RN: N/A) is classified as Declarable/Prohibited (D/P). The substance has mixed classification, meaning it can be declared or prohibited depending on the application. It is tracked for information, legally regulated, and under assessment. Must be declared if present above 0.1%." ∧
    classificationSummaryContent
        { cas_rn := some "7439-92-1", classification := some " D/P ",
          reason_code := some "ﬁ/LR/fa" } =
      "<strong>Summary:</strong><br>N/A (CAS RN: 7439-92-1) is classified as Declarable/Prohibited (D/P). The substance has mixed classification, meaning it can be declared or prohibited depending on the application. It is tracked for information, legally regulated, and under assessment. Must be declared if present above 0.1%." :=
  ⟨(dp_all_codes_summary
      { substance_name := some "Lead", classification := some " D/P ",
        reason_code := some " lr / fi //FA " } " D/P " rfl (by decide)
      (Or.inr ⟨" lr / fi //FA ", rfl, by decide⟩)).trans (by rfl),
    (dp_all_codes_summary
      { cas_rn := some "7439-92-1", classification := some " D/P ",
        reason_code := some "ﬁ/LR/fa" } " D/P " rfl (by decide)
      (Or.inr ⟨"ﬁ/LR/fa", rfl, by decide!⟩)).trans (by rfl)⟩

/-- C4: a record whose classification trims to `"D/P"`, `"P"` or `"D"` and
whose canonical key is none of the keys listed for that classification (the
empty key included) gets that classification's default text, which is not the
global fallback text, and no `Classification` or `Reason Code` paragraph. -/
theorem unlisted_key_default_summary (r : SubstanceRecord) (c : String)
    (hcls : r.classification = some c)
    (h : (jsTrim c = "D/P" ∧
            sortedReasonCodeString r ∉ ["FA&FI&LR", "FA&LR", "FI&LR", "FA", "LR"]) ∨
         (jsTrim c = "P" ∧ sortedReasonCodeString r ∉ ["LR", "FA"]) ∨
         (jsTrim c = "D" ∧
            sortedReasonCodeString r ∉
              ["FA&FI&LR", "FA&FI", "FI&LR", "FA&LR", "FA", "LR", "FI"])) :
    classificationSummaryContent r =
        "<strong>Summary:</strong><br>" ++ orElse r.substance_name "N/A" ++ " (CAS RN: " ++
          orElse r.cas_rn "N/A" ++ ") is classified as " ++
          (if jsTrim c = "D/P" then
            "Declarable/Prohibited (D/P). This substance has both allowed and prohibited uses in at least one region/market. Evaluate the substance entry to determine if individual substances are declarable or prohibited. Must be declared if present above 0.1%."
          else if jsTrim c = "P" then
            "Prohibited, meaning it is banned for automotive use in at least one region or market."
          else
            "Declarable (D). This substance must be declared if it exceeds defined threshold limits.") ∧
      classificationSummaryContent r ≠ fallbackSummary r ∧
      ∀ v : String,
        createDetailElement "Classification" v ∉ detailElements r ∧
          createDetailElement "Reason Code" v ∉ detailElements r := by
  rw [← classificationOf_some hcls] at h ⊢
  have hcustom : isCustomSummaryGenerated r = true := by
    rw [isCustomSummaryGenerated_iff]
    rcases h with h | h | h
    · exact Or.inl h.1
    · exact Or.inr (Or.inl h.1)
    · exact Or.inr (Or.inr (Or.inl h.1))
  have hPDP : ("P" = "D/P") = False := by decide
  have hDDP : ("D" = "D/P") = False := by decide
  have hDP : ("D" = "P") = False := by decide
  refine ⟨?_, ?_, ?_⟩
  · unfold classificationSummaryContent classificationSummary
    rcases h with ⟨hc, hk⟩ | ⟨hc, hk⟩ | ⟨hc, hk⟩ <;>
      simp only [List.mem_cons, List.mem_singleton, List.not_mem_nil, or_false, not_or] at hk
    · simp only [hc, hk, if_true, if_false, summaryText, restDP]
    · simp only [hc, hk, hPDP, if_true, if_false, summaryText, restP]
    · simp only [hc, hk, hDDP, hDP, if_true, if_false, summaryText, restD]
  · unfold classificationSummaryContent classificationSummary fallbackSummary
    rcases h with ⟨hc, hk⟩ | ⟨hc, hk⟩ | ⟨hc, hk⟩ <;>
      simp only [List.mem_cons, List.mem_singleton, List.not_mem_nil, or_false, not_or] at hk
    · simp only [hc, if_true]
      intro heq
      have heq' := summaryText_rest_inj heq
      simp only [restDP, hk, if_false, restFallback, orElse] at heq'
      simp only [show ("D/P" = "") = False from by decide, if_false] at heq'
      rw [String.append_assoc] at heq'
      have h1 := congrArg (fun t : String => t.data.get? 1) heq'
      dsimp only at h1
      rw [data_get?_append_left _ _ 1 (by decide)] at h1
      exact absurd h1 (by decide)
    · simp only [hc, hPDP, if_false, if_true]
      intro heq
      have heq' := summaryText_rest_inj heq
      simp only [restP, hk, if_false, restFallback, orElse] at heq'
      simp only [show ("P" = "") = False from by decide, if_false] at heq'
      rw [String.append_assoc] at heq'
      have h1 := congrArg (fun t : String => t.data.get? 1) heq'
      dsimp only at h1
      rw [data_get?_append_left _ _ 1 (by decide)] at h1
      exact absurd h1 (by decide)
    · simp only [hc, hDDP, hDP, if_false, if_true]
      intro heq
      have heq' := summaryText_rest_inj heq
      simp only [restD, hk, if_false, restFallback, orElse] at heq'
      simp only [show ("D" = "") = False from by decide, if_false] at heq'
      rw [String.append_assoc] at heq'
      have h1 := congrArg (fun t : String => t.data.get? 1) heq'
      dsimp only at h1
      rw [data_get?_append_left _ _ 1 (by decide)] at h1
      exact absurd h1 (by decide)
  · intro v
    rw [detailElements_of_custom hcustom]
    exact field_lines_no_classification r v

/-- Witness of C4: classification `" D/P "` without `reason_code` (empty
key), classification `"\tD/P "` with `"fa / FA /lr"` (key `FA&FA&LR`), and
classification `" P "` with `"ﬁ"` (key `FI`). -/
theorem unlisted_key_default_summary_witness :
    classificationSummaryContent { substance_name := some "Lead", classification := some " D/P " } =
        "<strong>Summary:</strong><br>Lead (CAS RN: N/A) is classified as Declarable/Prohibited (D/P). This substance has both allowed and prohibited uses in at least one region/market. Evaluate the substance entry to determine if individual substances are declarable or prohibited. Must be declared if present above 0.1%." ∧
      classificationSummaryContent
          { substance_name := some "Lead", classification := some "\tD/P ",
            reason_code := some "fa / FA /lr" } =
        "<strong>Summary:</strong><br>Lead (CAS RN: N/A) is classified as Declarable/Prohibited (D/P). This substance has both allowed and prohibited uses in at least one region/market. Evaluate the substance entry to determine if individual substances are declarable or prohibited. Must be declared if present above 0.1%." ∧
      classificationSummaryContent
          { cas_rn := some "7439-92-1", classification := some " P ", reason_code := some "ﬁ" } =
        "<strong>Summary:</strong><br>N/A (CAS RN: 7439-92-1) is classified as Prohibited, meaning it is banned for automotive use in at least one region or market." ∧
      classificationSummaryContent { substance_name := some "Lead", classification := some " D/P " } ≠
        fallbackSummary { substance_name := some "Lead", classification := some " D/P " } :=
  have h₁ := unlisted_key_default_summary
    { substance_name := some "Lead", classification := some " D/P " } " D/P " rfl
    (Or.inl ⟨by decide, by decide⟩)
  have h₂ := unlisted_key_default_summary
    { substance_name := some "Lead", classification := some "\tD/P ",
      reason_code := some "fa / FA /lr" } "\tD/P " rfl
    (Or.inl ⟨by decide, by decide⟩)
  have h₃ := unlisted_key_default_summary
    { cas_rn := some "7439-92-1", classification := some " P ", reason_code := some "ﬁ" }
    " P " rfl (Or.inr (Or.inl ⟨by decide, by decide!⟩))
  ⟨h₁.1.trans (by rfl), h₂.1.trans (by rfl), h₃.1.trans (by rfl), h₁.2.1⟩

/-- C5: a record whose trimmed classification is `"FI"` gets the standalone
For-Information text whatever its `reason_code` is, absent included; any other
`FI` record with the same `substance_name` and `cas_rn` gets the same summary. -/
theorem fi_summary (r : SubstanceRecord) (h : classificationOf r = "FI") :
    classificationSummaryContent r =
        "<strong>Summary:</strong><br>" ++ orElse r.substance_name "N/A" ++ " (CAS RN: " ++
          orElse r.cas_rn "N/A" ++
          ") is classified as For Information (FI). This substance is tracked for informational purposes; no current regulatory prohibition or de-selection based solely on GADSL listing." ∧
      ∀ r' : SubstanceRecord, classificationOf r' = "FI" →
        r'.substance_name = r.substance_name → r'.cas_rn = r.cas_rn →
        classificationSummaryContent r' = classificationSummaryContent r := by
  have hFIDP : ("FI" = "D/P") = False := by decide
  have hFIP : ("FI" = "P") = False := by decide
  have hFID : ("FI" = "D") = False := by decide
  have key : ∀ q : SubstanceRecord, classificationOf q = "FI" →
      classificationSummaryContent q =
        summaryText (orElse q.substance_name "N/A") (orElse q.cas_rn "N/A") restFI := by
    intro q hq
    unfold classificationSummaryContent classificationSummary
    simp only [hq, hFIDP, hFIP, hFID, if_false, if_true]
  refine ⟨?_, ?_⟩
  · rw [key r h]
    simp only [summaryText, restFI, String.append_assoc]
    rfl
  · intro r' h' hn hc
    rw [key r h, key r' h', hn, hc]

/-- Witness of C5 at two `FI` records with different reason codes. -/
theorem fi_summary_witness :
    classificationSummaryContent
        { substance_name := some "Zinc", cas_rn := some "7440-66-6",
          classification := some "FI", reason_code := some "FA/LR" } =
      classificationSummaryContent
        { substance_name := some "Zinc", cas_rn := some "7440-66-6",
          classification := some " FI" } :=
  (fi_summary
    { substance_name := some "Zinc", cas_rn := some "7440-66-6",
      classification := some " FI" } (by decide)).2
    { substance_name := some "Zinc", cas_rn := some "7440-66-6",
      classification := some "FI", reason_code := some "FA/LR" } (by decide) rfl rfl

/-- C6, as stated, fails: for the record with classification `" XYZ "` and
`reason_code` `"fa/lr"` the fallback summary holds `XYZ` and `FA/LR`; neither
the classification nor the reason code occurs in it as the record supplied it. -/
theorem fallback_not_verbatim :
    classificationSummary { classification := some " XYZ ", reason_code := some "fa/lr" } =
        ("<strong>Summary:</strong><br>N/A (CAS RN: N/A) is classified as XYZ. Reason Code: FA/LR. (Definition not explicitly available in this tool. Refer to official GADSL documentation.)",
          false) ∧
      ¬ "fa/lr".data <:+:
        (classificationSummaryContent
          { classification := some " XYZ ", reason_code := some "fa/lr" }).data ∧
      ¬ " XYZ ".data <:+:
        (classificationSummaryContent
          { classification := some " XYZ ", reason_code := some "fa/lr" }).data := by
  refine ⟨by rfl, ?_, ?_⟩ <;> decide!

/-- C6, amended: a record whose trimmed classification is none of `"D/P"`,
`"P"`, `"D"`, `"FI"` gets the fallback summary, which embeds the trimmed
classification (`"N/A"` when absent or blank) and the `reason_code` uppercased
(by the full Unicode mapping of `toUpperCase`) and trimmed (`"N/A"` when absent
or blank). -/
theorem fallback_summary (r : SubstanceRecord)
    (h : classificationOf r ∉ ["D/P", "P", "D", "FI"]) :
    classificationSummaryContent r =
        "<strong>Summary:</strong><br>" ++ orElse r.substance_name "N/A" ++ " (CAS RN: " ++
          orElse r.cas_rn "N/A" ++ ") is classified as " ++
          (if classificationOf r = "" then "N/A" else classificationOf r) ++
          ". Reason Code: " ++
          (if rawReasonCode r = "" then "N/A" else rawReasonCode r) ++
          ". (Definition not explicitly available in this tool. Refer to official GADSL documentation.)" ∧
      isCustomSummaryGenerated r = false ∧
      classificationOf r =
        (match r.classification with
          | none => ""
          | some c => jsTrim c) ∧
      rawReasonCode r =
        (match r.reason_code with
          | none => ""
          | some rc => jsTrim (toUpperCase rc)) := by
  simp only [List.mem_cons, List.mem_singleton, List.not_mem_nil, or_false, not_or] at h
  obtain ⟨h1, h2, h3, h4⟩ := h
  refine ⟨?_, ?_, ?_, ?_⟩
  · unfold classificationSummaryContent classificationSummary fallbackSummary
    simp only [h1, h2, h3, h4, if_false, summaryText, restFallback, orElse, String.append_assoc]
  · unfold isCustomSummaryGenerated classificationSummary
    simp only [h1, h2, h3, h4, if_false]
  · unfold classificationOf
    cases r.classification with
    | none => rfl
    | some c =>
      by_cases hc : c = ""
      · subst hc
        rfl
      · simp only [hc, if_false]
  · unfold rawReasonCode
    cases r.reason_code with
    | none => rfl
    | some rc => exact rawReasonCodeOf_some rc

/-- Witness of the amended C6 at classification `" XYZ "` and reason code
`" é/straße "`: the summary holds `XYZ` and `É/STRASSE`. -/
theorem fallback_summary_witness :
    classificationSummaryContent
        { classification := some " XYZ ", reason_code := some " é/straße " } =
        "<strong>Summary:</strong><br>N/A (CAS RN: N/A) is classified as XYZ. Reason Code: É/STRASSE. (Definition not explicitly available in this tool. Refer to official GADSL documentation.)" ∧
      isCustomSummaryGenerated
          { classification := some " XYZ ", reason_code := some " é/straße " } =
        false :=
  have h := fallback_summary { classification := some " XYZ ", reason_code := some " é/straße " }
    (by decide)
  ⟨h.1.trans (by rfl), h.2.1⟩

/-- C7, as stated, fails: for a `D` record without `reporting_threshold` the
Reporting Threshold line shows `0.1%`, not `N/A`. -/
theorem absent_threshold_not_na :
    ({ substance_name := some "Lead", classification := some "D" } :
        SubstanceRecord).reporting_threshold = none ∧
      detailElements { substance_name := some "Lead", classification := some "D" } =
        ["<strong>Substance Name:</strong> Lead", "<strong>CAS RN:</strong> N/A",
         "<strong>Source:</strong> N/A", "<strong>Reporting Threshold:</strong> 0.1%",
         "<strong>First Added:</strong> N/A", "<strong>Last Revised:</strong> N/A",
         "<strong>Generic Examples:</strong> N/A"] ∧
      createDetailElement "Reporting Threshold" "N/A" ∉
        detailElements { substance_name := some "Lead", classification := some "D" } := by
  refine ⟨rfl, ?_, ?_⟩ <;> decide

/-- C7, amended: the detail paragraphs are, in this order, Substance Name,
CAS RN, Source, Reporting Threshold, First Added, Last Revised, Generic
Examples; each shows the record's field or `"N/A"` when the field is absent,
except Reporting Threshold, which shows `"0.1%"` when the field is absent,
blank or `"N/A"`. They are preceded by a Classification and a Reason Code
paragraph exactly when the fallback summary was used, that is when the trimmed
classification is none of `"D/P"`, `"P"`, `"D"`, `"FI"`. -/
theorem detail_lines (r : SubstanceRecord) :
    detailElements r =
        (if classificationOf r ∈ ["D/P", "P", "D", "FI"] then []
         else
          [createDetailElement "Classification"
            (if classificationOf r = "" then "N/A" else classificationOf r),
           createDetailElement "Reason Code"
            (if rawReasonCode r = "" then "N/A" else rawReasonCode r)]) ++
        [createDetailElement "Substance Name" (r.substance_name.getD "N/A"),
         createDetailElement "CAS RN" (r.cas_rn.getD "N/A"),
         createDetailElement "Source" (r.source.getD "N/A"),
         createDetailElement "Reporting Threshold"
          (match r.reporting_threshold with
            | none => "0.1%"
            | some v => if v = "N/A" ∨ jsTrim v = "" then "0.1%" else v),
         createDetailElement "First Added" (r.first_added.getD "N/A"),
         createDetailElement "Last Revised" (r.last_revised.getD "N/A"),
         createDetailElement "Generic Examples" (r.generic_examples.getD "N/A")] ∧
      (classificationSummaryContent r = fallbackSummary r ↔
        classificationOf r ∉ ["D/P", "P", "D", "FI"]) := by
  have hmem : classificationOf r ∈ ["D/P", "P", "D", "FI"] ↔ isCustomSummaryGenerated r = true := by
    rw [isCustomSummaryGenerated_iff]
    simp only [List.mem_cons, List.mem_singleton, List.not_mem_nil, or_false]
  refine ⟨detail_lines_aux r, ?_⟩
  rw [hmem]
  constructor
  · intro heq hc
    exact custom_ne_fallback hc heq
  · intro hc
    exact content_of_fallback (by simpa using hc)

/-- C8, as stated, fails: a `reporting_threshold` of `"N/A"` is present and
non-blank, yet the Reporting Threshold line shows `0.1%` instead of it. -/
theorem threshold_na_not_verbatim :
    jsTrim "N/A" ≠ "" ∧
      createDetailElement "Reporting Threshold" "0.1%" ∈
        detailElements { classification := some "D", reporting_threshold := some "N/A" } ∧
      createDetailElement "Reporting Threshold" "N/A" ∉
        detailElements { classification := some "D", reporting_threshold := some "N/A" } := by
  refine ⟨?_, ?_, ?_⟩ <;> decide

/-- C8, amended: every record has exactly one Reporting Threshold paragraph;
it shows `"0.1%"` when `reporting_threshold` is absent, blank or `"N/A"`, and
the field verbatim otherwise. -/
theorem reporting_threshold_line (r : SubstanceRecord) (x : String) :
    createDetailElement "Reporting Threshold" x ∈ detailElements r ↔
      x = (match r.reporting_threshold with
            | none => "0.1%"
            | some v => if jsTrim v = "" ∨ v = "N/A" then "0.1%" else v) := by
  have hval : (match r.reporting_threshold with
        | none => "0.1%"
        | some v => if jsTrim v = "" ∨ v = "N/A" then "0.1%" else v) =
      (match r.reporting_threshold with
        | none => "0.1%"
        | some v => if v = "N/A" ∨ jsTrim v = "" then "0.1%" else v) := by
    cases r.reporting_threshold with
    | none => rfl
    | some v => simp only [or_comm]
  rw [hval, (detail_lines_aux r)]
  simp only [List.mem_append, List.mem_cons, List.mem_singleton, List.not_mem_nil, or_false]
  constructor
  · rintro (h | h | h | h | h | h | h | h)
    · by_cases hm : classificationOf r = "D/P" ∨ classificationOf r = "P" ∨
          classificationOf r = "D" ∨ classificationOf r = "FI"
      · rw [if_pos hm] at h
        exact absurd h (List.not_mem_nil _)
      · rw [if_neg hm] at h
        simp only [List.mem_cons, List.mem_singleton, List.not_mem_nil, or_false] at h
        rcases h with h | h
        · exact absurd h (createDetailElement_ne _ _ 0 (by decide) (by decide) (by decide))
        · exact absurd h (createDetailElement_ne _ _ 2 (by decide) (by decide) (by decide))
    · exact absurd h (createDetailElement_ne _ _ 0 (by decide) (by decide) (by decide))
    · exact absurd h (createDetailElement_ne _ _ 0 (by decide) (by decide) (by decide))
    · exact absurd h (createDetailElement_ne _ _ 0 (by decide) (by decide) (by decide))
    · exact createDetailElement_value_inj h
    · exact absurd h (createDetailElement_ne _ _ 0 (by decide) (by decide) (by decide))
    · exact absurd h (createDetailElement_ne _ _ 0 (by decide) (by decide) (by decide))
    · exact absurd h (createDetailElement_ne _ _ 0 (by decide) (by decide) (by decide))
  · intro h
    subst h
    exact Or.inr (Or.inr (Or.inr (Or.inr (Or.inl rfl))))

/-- C9: a search by CAS number or by substance name whose input is empty
after trimming ends with the error message displayed and no request issued;
when the trimmed value is non-empty exactly one request is issued, a POST to
`/lookup_by_cas_rn` with body `{cas_rn: value}`, respectively to
`/lookup_by_substance_name` with body `{substance_name: value}`. -/
theorem search_empty_input (net : FetchOutcome) (p : Page) :
    (jsTrim p.casRn = "" →
      (searchSubmit (some "searchCasButton") net p).2 = [] ∧
      (searchSubmit (some "searchCasButton") net p).1.errorText = "Please enter a CAS Number." ∧
      (searchSubmit (some "searchCasButton") net p).1.errorDisplay = "block") ∧
    (jsTrim p.casRn ≠ "" →
      (searchSubmit (some "searchCasButton") net p).2 =
        [{ endpoint := "/lookup_by_cas_rn", method := "POST",
           headers := [("Content-Type", "application/json")],
           body := RequestBody.json [("cas_rn", jsTrim p.casRn)] }]) ∧
    (jsTrim p.substanceName = "" →
      (searchSubmit (some "searchNameButton") net p).2 = [] ∧
      (searchSubmit (some "searchNameButton") net p).1.errorText =
        "Please enter a Substance Name." ∧
      (searchSubmit (some "searchNameButton") net p).1.errorDisplay = "block") ∧
    (jsTrim p.substanceName ≠ "" →
      (searchSubmit (some "searchNameButton") net p).2 =
        [{ endpoint := "/lookup_by_substance_name", method := "POST",
           headers := [("Content-Type", "application/json")],
           body := RequestBody.json [("substance_name", jsTrim p.substanceName)] }]) := by
  have hne : (some "searchNameButton" = some "searchCasButton") = False := by decide
  refine ⟨?_, ?_, ?_, ?_⟩
  · intro h
    simp only [searchSubmit_isolated, clearErrorMessage, setInnerHTML, h, if_true, hideProgress,
      showErrorMessage, and_self]
  · intro h
    simp only [searchSubmit_isolated, clearErrorMessage, setInnerHTML, h, if_true, if_false, searchFetch,
      searchRequest]
  · intro h
    simp only [searchSubmit_isolated, clearErrorMessage, setInnerHTML, h, hne, if_true, if_false,
      hideProgress, showErrorMessage, and_self]
  · intro h
    simp only [searchSubmit_isolated, clearErrorMessage, setInnerHTML, h, hne, if_true, if_false,
      searchFetch, searchRequest]

/-- Witness of C9: a whitespace-only CAS input issues no request, the input
`" 7439-92-1 "` issues the request with the trimmed value. -/
theorem search_empty_input_witness :
    (searchSubmit (some "searchCasButton")
        (FetchOutcome.response true 200 "OK" (JsonBody.object none (some [])))
        { errorText := "", errorDisplay := "none", searchResults := [], progressDisplay := "none",
          casRn := "  \t ", substanceName := "", files := [] }).2 = [] ∧
      (searchSubmit (some "searchCasButton")
        (FetchOutcome.response true 200 "OK" (JsonBody.object none (some [])))
        { errorText := "", errorDisplay := "none", searchResults := [], progressDisplay := "none",
          casRn := " 7439-92-1 ", substanceName := "", files := [] }).2 =
        [{ endpoint := "/lookup_by_cas_rn", method := "POST",
           headers := [("Content-Type", "application/json")],
           body := RequestBody.json [("cas_rn", "7439-92-1")] }] :=
  ⟨((search_empty_input _ _).1 (by decide)).1,
    ((search_empty_input _ _).2.1 (by decide)).trans (by decide)⟩

/-- C10: with a file selected, the upload handler issues a request exactly
when the file's type is `application/pdf` and its size is at most 5,242,880
bytes; another type is rejected with the invalid-file-type message, a larger
PDF with the file-too-large message, both without a request; an accepted file
is sent in one POST to `/upload_msds_pdf` under the field `msds_pdf`. -/
theorem upload_validation (net : FetchOutcome) (p : Page) (file : FileHandle)
    (others : List FileHandle) (hfile : p.files = file :: others) :
    ((uploadClick net p).2 ≠ [] ↔ file.type = "application/pdf" ∧ file.size ≤ 5242880) ∧
    (file.type ≠ "application/pdf" →
      (uploadClick net p).2 = [] ∧
      (uploadClick net p).1.errorText = "Upload a valid PDF file." ∧
      (uploadClick net p).1.errorDisplay = "block") ∧
    (file.type = "application/pdf" → 5242880 < file.size →
      (uploadClick net p).2 = [] ∧
      (uploadClick net p).1.errorText =
        "File size exceeds 5MB. Please upload a smaller file." ∧
      (uploadClick net p).1.errorDisplay = "block") ∧
    (file.type = "application/pdf" → file.size ≤ 5242880 →
      (uploadClick net p).2 =
        [{ endpoint := "/upload_msds_pdf", method := "POST", headers := [],
           body := RequestBody.formData "msds_pdf" file }]) := by
  have hmax : MAX_FILE_SIZE = 5242880 := by decide
  have hmsg : "File size exceeds " ++ toString (MAX_FILE_SIZE / (1024 * 1024)) ++
      "MB. Please upload a smaller file." =
        "File size exceeds 5MB. Please upload a smaller file." := by decide
  have hfiles : (setInnerHTML "" (clearErrorMessage p)).files = file :: others := hfile
  have h1 : file.type ≠ "application/pdf" →
      uploadClick net p =
        (showErrorMessage "Upload a valid PDF file." (setInnerHTML "" (clearErrorMessage p)),
          []) := by
    intro h
    rw [uploadClick_isolated]
    simp only [hfiles, h, ne_eq, not_false_eq_true, if_true]
  have h2 : file.type = "application/pdf" → 5242880 < file.size →
      uploadClick net p =
        (showErrorMessage "File size exceeds 5MB. Please upload a smaller file."
          (setInnerHTML "" (clearErrorMessage p)), []) := by
    intro h hs
    have hs' : file.size > MAX_FILE_SIZE := by rw [hmax]; exact hs
    rw [uploadClick_isolated]
    simp only [hfiles, h, ne_eq, not_true_eq_false, if_false, hs', if_true, hmsg]
  have h3 : file.type = "application/pdf" → file.size ≤ 5242880 →
      (uploadClick net p).2 = [uploadRequest file] := by
    intro h hs
    have hs' : ¬ file.size > MAX_FILE_SIZE := by rw [hmax]; omega
    rw [uploadClick_isolated]
    simp only [hfiles, h, ne_eq, not_true_eq_false, if_false, hs']
  refine ⟨?_, ?_, ?_, ?_⟩
  · constructor
    · intro hreq
      by_contra hcon
      apply hreq
      by_cases ht : file.type = "application/pdf"
      · have hs : 5242880 < file.size := by
          by_contra hs
          exact hcon ⟨ht, by omega⟩
        rw [h2 ht hs]
      · rw [h1 ht]
    · rintro ⟨ht, hs⟩
      rw [h3 ht hs]
      simp
  · intro ht
    rw [h1 ht]
    exact ⟨rfl, rfl, rfl⟩
  · intro ht hs
    rw [h2 ht hs]
    exact ⟨rfl, rfl, rfl⟩
  · intro ht hs
    rw [h3 ht hs]
    rfl

/-- Witness of C10: a PDF of exactly 5,242,880 bytes is sent, a PDF of 6 MiB
is rejected without a request. -/
theorem upload_validation_witness :
    (uploadClick FetchOutcome.networkError
        { errorText := "", errorDisplay := "none", searchResults := [], progressDisplay := "none",
          casRn := "", substanceName := "",
          files := [{ name := "msds.pdf", type := "application/pdf", size := 5242880 }] }).2 =
      [{ endpoint := "/upload_msds_pdf", method := "POST", headers := [],
         body := RequestBody.formData "msds_pdf"
          { name := "msds.pdf", type := "application/pdf", size := 5242880 } }] ∧
    (uploadClick FetchOutcome.networkError
        { errorText := "", errorDisplay := "none", searchResults := [], progressDisplay := "none",
          casRn := "", substanceName := "",
          files := [{ name := "big.pdf", type := "application/pdf", size := 6291456 }] }).2 = [] :=
  ⟨(upload_validation FetchOutcome.networkError _ _ [] rfl).2.2.2 rfl (by decide),
    ((upload_validation FetchOutcome.networkError _ _ [] rfl).2.2.1 rfl (by decide)).1⟩

/-! ## Lemmas on the handlers -/

/-- The `catch` block leaves a page with a message on display unchanged. -/
theorem catchBlock_of_shown (generic : String) {q : Page} (h : q.errorText ≠ "") :
    catchBlock generic q = q := by
  unfold catchBlock
  rw [if_neg h]

/-- The message of the failed-response branch is never empty. -/
theorem failed_message_ne_empty (error : Option String) (status : Nat) (statusText : String) :
    orElse error ("Error: " ++ toString status ++ " " ++ statusText) ≠ "" := by
  have hsyn : "Error: " ++ toString status ++ " " ++ statusText ≠ "" := by
    intro h
    have h' := congrArg (fun t : String => t.data.get? 0) h
    dsimp only at h'
    rw [String.append_assoc, String.append_assoc, data_get?_append_left _ _ 0 (by decide)] at h'
    exact absurd h' (by decide)
  unfold orElse
  cases error with
  | none => exact hsyn
  | some e =>
    by_cases he : e = ""
    · simp only [he, if_true]
      exact hsyn
    · simp only [he, if_false]
      exact he

/-- Outcome of the shared `try`/`catch` part on a failed response whose body
is a JSON value other than `null`. -/
theorem handleOutcome_failed (emptyHtml generic : String) (status : Nat) (statusText : String)
    (error : Option String) (results : Option (List SubstanceRecord)) (p : Page) :
    handleOutcome emptyHtml generic
        (FetchOutcome.response false status statusText (JsonBody.object error results)) p =
      showErrorMessage (orElse error ("Error: " ++ toString status ++ " " ++ statusText)) p := by
  simp only [handleOutcome, Bool.not_false, if_true]
  exact catchBlock_of_shown generic (failed_message_ne_empty error status statusText)

/-- The search handler with a non-empty trimmed CAS number reaches `fetch`. -/
theorem searchSubmit_cas {p : Page} (h : jsTrim p.casRn ≠ "") (net : FetchOutcome) :
    searchSubmit (some "searchCasButton") net p =
      searchFetch "/lookup_by_cas_rn" [("cas_rn", jsTrim p.casRn)] net
        { setInnerHTML "" (clearErrorMessage p) with progressDisplay := "block" } := by
  simp only [searchSubmit_isolated, clearErrorMessage, setInnerHTML, h, if_true, if_false]

/-- The search handler with a non-empty trimmed substance name reaches `fetch`. -/
theorem searchSubmit_name {p : Page} (h : jsTrim p.substanceName ≠ "") (net : FetchOutcome) :
    searchSubmit (some "searchNameButton") net p =
      searchFetch "/lookup_by_substance_name" [("substance_name", jsTrim p.substanceName)] net
        { setInnerHTML "" (clearErrorMessage p) with progressDisplay := "block" } := by
  have hne : (some "searchNameButton" = some "searchCasButton") = False := by decide
  simp only [searchSubmit_isolated, clearErrorMessage, setInnerHTML, h, hne, if_true, if_false]

/-- The upload handler with an accepted first file reaches `fetch`. -/
theorem uploadClick_accepted {p : Page} {file : FileHandle} {others : List FileHandle}
    (hfile : p.files = file :: others) (ht : file.type = "application/pdf")
    (hs : file.size ≤ 5242880) (net : FetchOutcome) :
    uploadClick net p =
      (hideProgress
        (handleOutcome noSubstancesInPdfHtml
          "An error occurred during PDF processing. Check console logs." net
          { setInnerHTML "" (clearErrorMessage p) with progressDisplay := "block" }),
       [uploadRequest file]) := by
  have hmax : MAX_FILE_SIZE = 5242880 := by decide
  have hfiles : (setInnerHTML "" (clearErrorMessage p)).files = file :: others := hfile
  have hs' : ¬ file.size > MAX_FILE_SIZE := by rw [hmax]; omega
  rw [uploadClick_isolated]
  simp only [hfiles, ht, ne_eq, not_true_eq_false, if_false, hs']

/-! ## Claims on the response handling -/

/-- C11, as stated, fails: on a `502 Bad Gateway` response whose body is not
JSON, the search and the upload handler end with the catch block's generic
message, not with a message made from the HTTP status; and on a `500` response
whose `error` field is the empty string the status message is shown. -/
theorem unparseable_error_body_generic :
    (searchSubmit (some "searchCasButton")
        (FetchOutcome.response false 502 "Bad Gateway" JsonBody.parseError)
        { errorText := "", errorDisplay := "none", searchResults := [], progressDisplay := "none",
          casRn := "50-00-0", substanceName := "", files := [] }).1.errorText =
      "An error occurred while searching. Check console logs for details." ∧
    (uploadClick (FetchOutcome.response false 502 "Bad Gateway" JsonBody.parseError)
        { errorText := "", errorDisplay := "none", searchResults := [], progressDisplay := "none",
          casRn := "", substanceName := "",
          files := [{ name := "msds.pdf", type := "application/pdf", size := 1024 }] }).1.errorText =
      "An error occurred during PDF processing. Check console logs." ∧
    (searchSubmit (some "searchCasButton")
        (FetchOutcome.response false 500 "Internal Server Error"
          (JsonBody.object (some "") none))
        { errorText := "", errorDisplay := "none", searchResults := [], progressDisplay := "none",
          casRn := "50-00-0", substanceName := "", files := [] }).1.errorText =
      "Error: 500 Internal Server Error" := by
  refine ⟨?_, ?_, ?_⟩ <;> decide

/-- C11, amended: on a response with a non-success status whose body parses
as JSON to a value other than `null`, the search handler (by CAS number or by
name) and the upload handler end with, on display, the `error` field of the
body when it is present and non-empty, and otherwise the message
`Error: <status> <statusText>`; the catch block never replaces a message that
is already shown. -/
theorem failed_response_message (p : Page) (status : Nat) (statusText : String)
    (error : Option String) (results : Option (List SubstanceRecord)) :
    (jsTrim p.casRn ≠ "" →
      (searchSubmit (some "searchCasButton")
          (FetchOutcome.response false status statusText (JsonBody.object error results))
          p).1.errorText =
        (match error with
          | none => "Error: " ++ toString status ++ " " ++ statusText
          | some e => if e = "" then "Error: " ++ toString status ++ " " ++ statusText else e) ∧
      (searchSubmit (some "searchCasButton")
          (FetchOutcome.response false status statusText (JsonBody.object error results))
          p).1.errorDisplay = "block") ∧
    (jsTrim p.substanceName ≠ "" →
      (searchSubmit (some "searchNameButton")
          (FetchOutcome.response false status statusText (JsonBody.object error results))
          p).1.errorText =
        (match error with
          | none => "Error: " ++ toString status ++ " " ++ statusText
          | some e => if e = "" then "Error: " ++ toString status ++ " " ++ statusText else e) ∧
      (searchSubmit (some "searchNameButton")
          (FetchOutcome.response false status statusText (JsonBody.object error results))
          p).1.errorDisplay = "block") ∧
    (∀ (file : FileHandle) (others : List FileHandle), p.files = file :: others →
      file.type = "application/pdf" → file.size ≤ 5242880 →
      (uploadClick
          (FetchOutcome.response false status statusText (JsonBody.object error results))
          p).1.errorText =
        (match error with
          | none => "Error: " ++ toString status ++ " " ++ statusText
          | some e => if e = "" then "Error: " ++ toString status ++ " " ++ statusText else e) ∧
      (uploadClick
          (FetchOutcome.response false status statusText (JsonBody.object error results))
          p).1.errorDisplay = "block") ∧
    (∀ (generic : String) (q : Page), q.errorText ≠ "" → catchBlock generic q = q) := by
  have hmsg : orElse error ("Error: " ++ toString status ++ " " ++ statusText) =
      (match error with
        | none => "Error: " ++ toString status ++ " " ++ statusText
        | some e => if e = "" then "Error: " ++ toString status ++ " " ++ statusText else e) := by
    cases error <;> rfl
  refine ⟨?_, ?_, ?_, ?_⟩
  · intro h
    rw [searchSubmit_cas h, searchFetch, handleOutcome_failed, ← hmsg]
    exact ⟨rfl, rfl⟩
  · intro h
    rw [searchSubmit_name h, searchFetch, handleOutcome_failed, ← hmsg]
    exact ⟨rfl, rfl⟩
  · intro file others hfile ht hs
    rw [uploadClick_accepted hfile ht hs, handleOutcome_failed, ← hmsg]
    exact ⟨rfl, rfl⟩
  · intro generic q hq
    exact catchBlock_of_shown generic hq

/-- Witness of the amended C11: a `404` response with body
`{"error": "CAS RN not found"}` ends with that message on display. -/
theorem failed_response_message_witness :
    (searchSubmit (some "searchCasButton")
        (FetchOutcome.response false 404 "Not Found"
          (JsonBody.object (some "CAS RN not found") none))
        { errorText := "", errorDisplay := "none", searchResults := [], progressDisplay := "none",
          casRn := "50-00-0", substanceName := "", files := [] }).1.errorText =
      "CAS RN not found" :=
  ((failed_response_message
      { errorText := "", errorDisplay := "none", searchResults := [], progressDisplay := "none",
        casRn := "50-00-0", substanceName := "", files := [] }
      404 "Not Found" (some "CAS RN not found") none).1 (by decide)).1.trans (by decide)

/-- Outcome of the shared `try`/`catch` part on a successful response whose
`results` is missing or empty. -/
theorem handleOutcome_empty (emptyHtml generic : String) (status : Nat) (statusText : String)
    (error : Option String) {results : Option (List SubstanceRecord)}
    (h : results = none ∨ results = some []) (p : Page) :
    handleOutcome emptyHtml generic
        (FetchOutcome.response true status statusText (JsonBody.object error results)) p =
      setInnerHTML emptyHtml p := by
  rcases h with h | h <;> subst h <;> rfl

/-- The children `displayResults` appends for a non-empty array start with a
result item. -/
theorem displayResults_cons (r : SubstanceRecord) (rs : List SubstanceRecord) :
    displayResults (r :: rs) =
      renderRecord r :: Node.hr :: rs.flatMap (fun q => [renderRecord q, Node.hr]) := by
  unfold displayResults
  rw [if_neg (by simp)]
  rfl

/-- The children after the shared `try`/`catch` part, started on an emptied
results area, are never the output of `displayResults` on an empty array. -/
theorem handleOutcome_ne_displayResults_nil (emptyHtml generic : String)
    (hempty : emptyHtml ≠ "<p>No GADSL substance found.</p>") (net : FetchOutcome) (p : Page)
    (hp : p.searchResults = []) :
    (handleOutcome emptyHtml generic net p).searchResults ≠ displayResults [] := by
  have hnil : displayResults [] = [Node.html "<p>No GADSL substance found.</p>"] := rfl
  have hcatch : ∀ q : Page, q.searchResults = [] →
      (catchBlock generic q).searchResults ≠ displayResults [] := by
    intro q hq
    unfold catchBlock
    by_cases h : q.errorText = ""
    · rw [if_pos h, hnil]
      simp [showErrorMessage]
    · rw [if_neg h, hq, hnil]
      simp
  have hset : (setInnerHTML emptyHtml p).searchResults ≠ displayResults [] := by
    rw [hnil]
    unfold setInnerHTML
    by_cases h : emptyHtml = ""
    · simp [h]
    · simp [h, hempty]
  cases net with
  | networkError => exact hcatch p hp
  | response ok status statusText body =>
    cases ok with
    | false =>
      cases body with
      | parseError => exact hcatch p hp
      | null => exact hcatch p hp
      | object error results =>
        rw [handleOutcome_failed, hnil]
        simp [showErrorMessage]
    | true =>
      cases body with
      | parseError => exact hcatch p hp
      | null => exact hcatch p hp
      | object error results =>
        match results with
        | none => exact hset
        | some [] => exact hset
        | some (r :: rs) =>
          show displayResults (r :: rs) ≠ displayResults []
          rw [displayResults_cons, hnil]
          simp [renderRecord]

theorem notListedHtml_ne : notListedHtml ≠ "<p>No GADSL substance found.</p>" := by
  decide

/-- A search run on its own never leaves the output of `displayResults` on an
empty array. -/
theorem searchSubmit_ne_displayResults_nil (submitterId : Option String) (net : FetchOutcome)
    (p : Page) : (searchSubmit submitterId net p).1.searchResults ≠ displayResults [] := by
  have hnil : displayResults [] = [Node.html "<p>No GADSL substance found.</p>"] := rfl
  by_cases h1 : submitterId = some "searchCasButton"
  · subst h1
    by_cases h : jsTrim p.casRn = ""
    · rw [hnil]
      simp [searchSubmit_isolated, clearErrorMessage, setInnerHTML, h, hideProgress,
        showErrorMessage]
    · rw [searchSubmit_cas h, searchFetch]
      exact handleOutcome_ne_displayResults_nil _ _ notListedHtml_ne net _ rfl
  · by_cases h2 : submitterId = some "searchNameButton"
    · subst h2
      by_cases h : jsTrim p.substanceName = ""
      · rw [hnil]
        simp [searchSubmit_isolated, clearErrorMessage, setInnerHTML, h, hideProgress,
          showErrorMessage]
      · rw [searchSubmit_name h, searchFetch]
        exact handleOutcome_ne_displayResults_nil _ _ notListedHtml_ne net _ rfl
    · rw [hnil]
      simp [searchSubmit_isolated, clearErrorMessage, setInnerHTML, h1, h2, hideProgress,
        showErrorMessage]

/-- A search with a non-empty trimmed input issues its request on the page
`searchPending` and finishes in `resumeAfterFetch`. -/
theorem searchSubmitAsync_of_request {p : Page} {submitterId : Option String}
    (hreq : (submitterId = some "searchCasButton" ∧ jsTrim p.casRn ≠ "") ∨
      (submitterId = some "searchNameButton" ∧ jsTrim p.substanceName ≠ ""))
    (net : FetchOutcome) (duringFetch duringBody : Page → Page) :
    (searchSubmitAsync submitterId net duringFetch duringBody p).1 =
      resumeAfterFetch notListedHtml
        "An error occurred while searching. Check console logs for details." net
        duringFetch duringBody (searchPending p) := by
  have hne : (some "searchNameButton" = some "searchCasButton") = False := by decide
  rcases hreq with ⟨hs, h⟩ | ⟨hs, h⟩
  · subst hs
    simp only [searchSubmitAsync, searchPending, clearErrorMessage, setInnerHTML, h, if_true,
      if_false]
  · subst hs
    simp only [searchSubmitAsync, searchPending, clearErrorMessage, setInnerHTML, h, hne,
      if_true, if_false]

/-- The results area after the shared `try`/`catch` part is empty, holds the
markup for an empty result list, is unchanged, or was written by
`displayResults` on a non-empty array. -/
theorem handleOutcome_searchResults (emptyHtml generic : String) (hne : emptyHtml ≠ "")
    (net : FetchOutcome) (q : Page) :
    (handleOutcome emptyHtml generic net q).searchResults = [] ∨
      (handleOutcome emptyHtml generic net q).searchResults = [Node.html emptyHtml] ∨
      (handleOutcome emptyHtml generic net q).searchResults = q.searchResults ∨
      ∃ (status : Nat) (statusText : String) (error : Option String) (r : SubstanceRecord)
        (rs : List SubstanceRecord),
        net = FetchOutcome.response true status statusText
          (JsonBody.object error (some (r :: rs))) ∧
        (handleOutcome emptyHtml generic net q).searchResults = displayResults (r :: rs) := by
  have hcatch : (catchBlock generic q).searchResults = [] ∨
      (catchBlock generic q).searchResults = q.searchResults := by
    unfold catchBlock
    by_cases h : q.errorText = ""
    · rw [if_pos h]
      exact Or.inl rfl
    · rw [if_neg h]
      exact Or.inr rfl
  have hcatch' : (catchBlock generic q).searchResults = [] ∨
      (catchBlock generic q).searchResults = [Node.html emptyHtml] ∨
      (catchBlock generic q).searchResults = q.searchResults ∨
      ∃ (status : Nat) (statusText : String) (error : Option String) (r : SubstanceRecord)
        (rs : List SubstanceRecord),
        net = FetchOutcome.response true status statusText
          (JsonBody.object error (some (r :: rs))) ∧
        (catchBlock generic q).searchResults = displayResults (r :: rs) := by
    rcases hcatch with h | h
    · exact Or.inl h
    · exact Or.inr (Or.inr (Or.inl h))
  have hset : (setInnerHTML emptyHtml q).searchResults = [Node.html emptyHtml] := by
    simp only [setInnerHTML, hne, if_false]
  cases net with
  | networkError => exact hcatch'
  | response ok status statusText body =>
    cases ok with
    | false =>
      cases body with
      | parseError => exact hcatch'
      | null => exact hcatch'
      | object error results =>
        rw [handleOutcome_failed]
        exact Or.inl rfl
    | true =>
      cases body with
      | parseError => exact hcatch'
      | null => exact hcatch'
      | object error results =>
        match results with
        | none => exact Or.inr (Or.inl hset)
        | some [] => exact Or.inr (Or.inl hset)
        | some (r :: rs) =>
          exact Or.inr (Or.inr (Or.inr ⟨status, statusText, error, r, rs, rfl, rfl⟩))

/-- C12, as stated, fails: the search for `50-00-0` gets a `200` response with
`results: []`, and while the request is pending the upload button is clicked
with no file selected; the search listener then finishes with the not-listed
block in the results area and the error message `Please select a PDF file.`
displayed. -/
theorem not_listed_with_error_shown :
    (searchSubmitAsync (some "searchCasButton")
        (FetchOutcome.response true 200 "OK" (JsonBody.object none (some [])))
        (fun q => (uploadClick FetchOutcome.networkError q).1) id
        { errorText := "", errorDisplay := "none", searchResults := [], progressDisplay := "none",
          casRn := "50-00-0", substanceName := "", files := [] }).1.searchResults =
      [Node.html notListedHtml] ∧
    (searchSubmitAsync (some "searchCasButton")
        (FetchOutcome.response true 200 "OK" (JsonBody.object none (some [])))
        (fun q => (uploadClick FetchOutcome.networkError q).1) id
        { errorText := "", errorDisplay := "none", searchResults := [], progressDisplay := "none",
          casRn := "50-00-0", substanceName := "", files := [] }).1.errorText =
      "Please select a PDF file." ∧
    (searchSubmitAsync (some "searchCasButton")
        (FetchOutcome.response true 200 "OK" (JsonBody.object none (some [])))
        (fun q => (uploadClick FetchOutcome.networkError q).1) id
        { errorText := "", errorDisplay := "none", searchResults := [], progressDisplay := "none",
          casRn := "50-00-0", substanceName := "", files := [] }).1.errorDisplay =
      "block" := by
  refine ⟨?_, ?_, ?_⟩ <;> decide!

/-- C12, amended: when a search (by CAS number or by name, with a non-empty
trimmed input) gets a successful response whose `results` is an empty array or
is missing, the results area ends up holding exactly the "Substance Not Listed
in GADSL" block and no result item, whatever other listeners did while the
request was pending; the listener clears the error message when it starts and
shows none itself, so the error area ends as those listeners left it, and
empty when the search ran on its own. A non-empty `results` is rendered by
`displayResults`; whenever the results area ends up written by
`displayResults`, the array had at least one record. -/
theorem empty_results_not_listed (p : Page) (submitterId : Option String) (status : Nat)
    (statusText : String) (error : Option String) (results : Option (List SubstanceRecord))
    (duringFetch duringBody : Page → Page)
    (hreq : (submitterId = some "searchCasButton" ∧ jsTrim p.casRn ≠ "") ∨
      (submitterId = some "searchNameButton" ∧ jsTrim p.substanceName ≠ ""))
    (hres : results = none ∨ results = some []) :
    (searchSubmitAsync submitterId
        (FetchOutcome.response true status statusText (JsonBody.object error results))
        duringFetch duringBody p).1.searchResults = [Node.html notListedHtml] ∧
    (searchSubmitAsync submitterId
        (FetchOutcome.response true status statusText (JsonBody.object error results))
        duringFetch duringBody p).1.errorText =
      (duringBody (duringFetch (searchPending p))).errorText ∧
    (searchSubmitAsync submitterId
        (FetchOutcome.response true status statusText (JsonBody.object error results))
        duringFetch duringBody p).1.errorDisplay =
      (duringBody (duringFetch (searchPending p))).errorDisplay ∧
    (searchPending p).errorText = "" ∧
    (searchPending p).errorDisplay = "none" ∧
    (searchSubmit submitterId
        (FetchOutcome.response true status statusText (JsonBody.object error results))
        p).1.errorText = "" ∧
    (searchSubmit submitterId
        (FetchOutcome.response true status statusText (JsonBody.object error results))
        p).1.errorDisplay = "none" ∧
    "<h3>Substance Not Listed in GADSL</h3>".data <:+: notListedHtml.data ∧
    (∀ (summaryBox : String) (details : List String),
      Node.resultItem summaryBox details ∉ [Node.html notListedHtml]) ∧
    (∀ (r : SubstanceRecord) (rs : List SubstanceRecord),
      (searchSubmitAsync submitterId
          (FetchOutcome.response true status statusText (JsonBody.object error (some (r :: rs))))
          duringFetch duringBody p).1.searchResults = displayResults (r :: rs)) ∧
    (∀ net : FetchOutcome,
      (searchSubmitAsync submitterId net duringFetch duringBody p).1.searchResults = [] ∨
      (searchSubmitAsync submitterId net duringFetch duringBody p).1.searchResults =
        [Node.html notListedHtml] ∨
      (searchSubmitAsync submitterId net duringFetch duringBody p).1.searchResults =
        (duringFetch (searchPending p)).searchResults ∨
      (searchSubmitAsync submitterId net duringFetch duringBody p).1.searchResults =
        (duringBody (duringFetch (searchPending p))).searchResults ∨
      ∃ (status' : Nat) (statusText' : String) (error' : Option String) (r : SubstanceRecord)
        (rs : List SubstanceRecord),
        net = FetchOutcome.response true status' statusText'
          (JsonBody.object error' (some (r :: rs))) ∧
        (searchSubmitAsync submitterId net duringFetch duringBody p).1.searchResults =
          displayResults (r :: rs)) ∧
    (∀ (submitterId' : Option String) (net : FetchOutcome),
      (searchSubmit submitterId' net p).1.searchResults ≠ displayResults []) := by
  have hnl : notListedHtml ≠ "" := by decide
  have hrun : ∀ (f g : Page → Page),
      (searchSubmitAsync submitterId
        (FetchOutcome.response true status statusText (JsonBody.object error results))
        f g p).1 = hideProgress (setInnerHTML notListedHtml (g (f (searchPending p)))) := by
    intro f g
    rw [searchSubmitAsync_of_request hreq, resumeAfterFetch, handleOutcome_empty _ _ _ _ _ hres]
  have hiso : searchSubmit submitterId
      (FetchOutcome.response true status statusText (JsonBody.object error results)) p =
      searchSubmitAsync submitterId
        (FetchOutcome.response true status statusText (JsonBody.object error results))
        id id p := rfl
  refine ⟨?_, ?_, ?_, rfl, rfl, ?_, ?_, ?_, ?_, ?_, ?_, ?_⟩
  · rw [hrun]
    simp only [hideProgress, setInnerHTML, hnl, if_false]
  · rw [hrun]
    rfl
  · rw [hrun]
    rfl
  · rw [hiso, hrun]
    rfl
  · rw [hiso, hrun]
    rfl
  · decide!
  · intro summaryBox details
    simp
  · intro r rs
    rw [searchSubmitAsync_of_request hreq]
    rfl
  · intro net
    rw [searchSubmitAsync_of_request hreq]
    cases net with
    | networkError =>
      rcases handleOutcome_searchResults notListedHtml
        "An error occurred while searching. Check console logs for details." hnl
        FetchOutcome.networkError (duringFetch (searchPending p)) with h | h | h | h
      · exact Or.inl h
      · exact Or.inr (Or.inl h)
      · exact Or.inr (Or.inr (Or.inl h))
      · obtain ⟨_, _, _, _, _, hnet, _⟩ := h
        cases hnet
    | response ok status' statusText' body =>
      rcases handleOutcome_searchResults notListedHtml
        "An error occurred while searching. Check console logs for details." hnl
        (FetchOutcome.response ok status' statusText' body)
        (duringBody (duringFetch (searchPending p))) with h | h | h | h
      · exact Or.inl h
      · exact Or.inr (Or.inl h)
      · exact Or.inr (Or.inr (Or.inr (Or.inl h)))
      · exact Or.inr (Or.inr (Or.inr (Or.inr h)))
  · intro submitterId' net
    exact searchSubmit_ne_displayResults_nil submitterId' net p

/-- Witness of the amended C12: a `200` response with `results: []` to a CAS
search, with an upload click without a file while the request is pending. -/
theorem empty_results_not_listed_witness :
    (searchSubmitAsync (some "searchCasButton")
        (FetchOutcome.response true 200 "OK" (JsonBody.object none (some [])))
        (fun q => (uploadClick FetchOutcome.networkError q).1) id
        { errorText := "old", errorDisplay := "block", searchResults := [Node.hr],
          progressDisplay := "none", casRn := " 50-00-0", substanceName := "",
          files := [] }).1.searchResults = [Node.html notListedHtml] ∧
    (searchSubmit (some "searchCasButton")
        (FetchOutcome.response true 200 "OK" (JsonBody.object none (some [])))
        { errorText := "old", errorDisplay := "block", searchResults := [Node.hr],
          progressDisplay := "none", casRn := " 50-00-0", substanceName := "",
          files := [] }).1.errorText = "" :=
  have h := empty_results_not_listed
    { errorText := "old", errorDisplay := "block", searchResults := [Node.hr],
      progressDisplay := "none", casRn := " 50-00-0", substanceName := "", files := [] }
    (some "searchCasButton") 200 "OK" none (some [])
    (fun q => (uploadClick FetchOutcome.networkError q).1) id
    (Or.inl ⟨rfl, by decide⟩) (Or.inr rfl)
  ⟨h.1, h.2.2.2.2.2.1⟩

/-- C13, as stated, fails: started while the progress bar is displayed, the
upload handler leaves it displayed when no file is selected, when the file is
not a PDF and when the PDF is too large. -/
theorem upload_rejection_keeps_progress :
    (uploadClick FetchOutcome.networkError
        { errorText := "", errorDisplay := "none", searchResults := [], progressDisplay := "block",
          casRn := "", substanceName := "", files := [] }).1.progressDisplay = "block" ∧
    (uploadClick FetchOutcome.networkError
        { errorText := "", errorDisplay := "none", searchResults := [], progressDisplay := "block",
          casRn := "", substanceName := "",
          files := [{ name := "notes.txt", type := "text/plain", size := 10 }] }).1.progressDisplay =
      "block" ∧
    (uploadClick FetchOutcome.networkError
        { errorText := "", errorDisplay := "none", searchResults := [], progressDisplay := "block",
          casRn := "", substanceName := "",
          files := [{ name := "big.pdf", type := "application/pdf",
                      size := 6291456 }] }).1.progressDisplay = "block" := by
  refine ⟨?_, ?_, ?_⟩ <;> decide

/-- C13, amended: the search handler ends with the progress bar hidden from
any initial state and on every path; the upload handler ends with it hidden on
every path on which it issued the request (failed response, thrown transport or
parse error, success), and on its local rejections (no file, wrong type, too
large), which issue no request, it leaves the display as it found it. -/
theorem progress_hidden_on_exit (net : FetchOutcome) (p : Page) :
    (∀ submitterId : Option String,
      (searchSubmit submitterId net p).1.progressDisplay = "none") ∧
    ((uploadClick net p).2 ≠ [] → (uploadClick net p).1.progressDisplay = "none") ∧
    ((uploadClick net p).2 = [] →
      (uploadClick net p).1.progressDisplay = p.progressDisplay) ∧
    (p.progressDisplay = "none" → (uploadClick net p).1.progressDisplay = "none") := by
  have hsearch : ∀ submitterId : Option String,
      (searchSubmit submitterId net p).1.progressDisplay = "none" := by
    intro submitterId
    rw [searchSubmit_isolated]
    simp only [searchFetch]
    split_ifs <;> rfl
  have hupload : ((uploadClick net p).2 ≠ [] → (uploadClick net p).1.progressDisplay = "none") ∧
      ((uploadClick net p).2 = [] →
        (uploadClick net p).1.progressDisplay = p.progressDisplay) := by
    cases hf : p.files with
    | nil =>
      have hfiles : (setInnerHTML "" (clearErrorMessage p)).files = [] := hf
      have hrun : uploadClick net p =
          (showErrorMessage "Please select a PDF file." (setInnerHTML "" (clearErrorMessage p)),
            []) := by
        rw [uploadClick_isolated]
        simp only [hfiles]
      rw [hrun]
      exact ⟨fun h => absurd rfl h, fun _ => rfl⟩
    | cons file others =>
      have hfiles : (setInnerHTML "" (clearErrorMessage p)).files = file :: others := hf
      by_cases ht : file.type = "application/pdf"
      · by_cases hs : file.size ≤ 5242880
        · rw [uploadClick_accepted hf ht hs]
          exact ⟨fun _ => rfl, fun h => absurd h (by simp)⟩
        · have hs' : file.size > MAX_FILE_SIZE := by
            have hmax : MAX_FILE_SIZE = 5242880 := by decide
            rw [hmax]
            omega
          have hrun : (uploadClick net p).2 = [] ∧
              (uploadClick net p).1.progressDisplay = p.progressDisplay := by
            rw [uploadClick_isolated]
            simp only [hfiles, ht, ne_eq, not_true_eq_false, if_false, hs', if_true, true_and]
            rfl
          exact ⟨fun h => absurd hrun.1 h, fun _ => hrun.2⟩
      · have hrun : uploadClick net p =
            (showErrorMessage "Upload a valid PDF file." (setInnerHTML "" (clearErrorMessage p)),
              []) := by
          rw [uploadClick_isolated]
          simp only [hfiles, ht, ne_eq, not_false_eq_true, if_true]
        rw [hrun]
        exact ⟨fun h => absurd rfl h, fun _ => rfl⟩
  refine ⟨hsearch, hupload.1, hupload.2, ?_⟩
  intro hp
  by_cases hreq : (uploadClick net p).2 = []
  · rw [hupload.2 hreq, hp]
  · exact hupload.1 hreq

/-! ## The listeners while other listeners run

What was shown for the listeners run on their own also holds when other
listeners write to the page during the two suspensions. -/

theorem resumeAfterFetch_progress (emptyHtml generic : String) (net : FetchOutcome)
    (duringFetch duringBody : Page → Page) (p : Page) :
    (resumeAfterFetch emptyHtml generic net duringFetch duringBody p).progressDisplay =
      "none" := by
  cases net <;> rfl

/-- The requests issued do not depend on what happens after `fetch` is called. -/
theorem searchSubmitAsync_requests (submitterId : Option String) (net : FetchOutcome)
    (duringFetch duringBody : Page → Page) (p : Page) :
    (searchSubmitAsync submitterId net duringFetch duringBody p).2 =
      (searchSubmit submitterId net p).2 := by
  unfold searchSubmit searchSubmitAsync
  simp only
  split_ifs <;> rfl

/-- The search listener always finishes with the progress bar hidden. -/
theorem searchSubmitAsync_progress (submitterId : Option String) (net : FetchOutcome)
    (duringFetch duringBody : Page → Page) (p : Page) :
    (searchSubmitAsync submitterId net duringFetch duringBody p).1.progressDisplay = "none" := by
  unfold searchSubmitAsync
  simp only
  split_ifs <;> first | rfl | exact resumeAfterFetch_progress _ _ _ _ _ _

/-- A failed response with a JSON body other than `null` ends with its message
on display, whatever was on the page when the body arrived. -/
theorem resumeAfterFetch_failed (emptyHtml generic : String) (status : Nat)
    (statusText : String) (error : Option String) (results : Option (List SubstanceRecord))
    (duringFetch duringBody : Page → Page) (p : Page) :
    (resumeAfterFetch emptyHtml generic
        (FetchOutcome.response false status statusText (JsonBody.object error results))
        duringFetch duringBody p).errorText =
      orElse error ("Error: " ++ toString status ++ " " ++ statusText) ∧
    (resumeAfterFetch emptyHtml generic
        (FetchOutcome.response false status statusText (JsonBody.object error results))
        duringFetch duringBody p).errorDisplay = "block" := by
  rw [resumeAfterFetch, handleOutcome_failed]
  exact ⟨rfl, rfl⟩

/-- The upload listener issues the same requests whatever happens after
`fetch` is called, and finishes with the progress bar hidden whenever it
issued one. -/
theorem uploadClickAsync_requests (net : FetchOutcome) (duringFetch duringBody : Page → Page)
    (p : Page) :
    (uploadClickAsync net duringFetch duringBody p).2 = (uploadClick net p).2 ∧
      ((uploadClickAsync net duringFetch duringBody p).2 ≠ [] →
        (uploadClickAsync net duringFetch duringBody p).1.progressDisplay = "none") := by
  unfold uploadClick uploadClickAsync
  simp only
  split
  · exact ⟨rfl, fun h => absurd rfl h⟩
  · split_ifs
    · exact ⟨rfl, fun h => absurd rfl h⟩
    · exact ⟨rfl, fun h => absurd rfl h⟩
    · exact ⟨rfl, fun _ => resumeAfterFetch_progress _ _ _ _ _ _⟩

end ChemSure
